import Mathlib

/-!
Shallow embedding of the drupalsite-operator reconciliation controller
(controllers/drupalsite_controller.go, controllers/drupalsite_resources.go and
the status helper file) together with theorems about its behaviour.

External collaborators (the Kubernetes API client, the exec channel into the
server pod, the clock) are modelled as oracle fields of an environment record
that is fixed for the duration of one reconcile pass.  Cluster state touched by
the controller is modelled explicitly so that convergence effects are visible.
-/

/-- Status values a Kubernetes-style condition can take (True/False/Unknown). -/
inductive CondStatus where
  | ctrue
  | cfalse
  | cunknown
deriving DecidableEq, Repr

/-- A single status condition: status plus reason and message
(the last-transition timestamp is not modelled; SetCondition ignores it when
deciding whether anything changed). -/
structure Cond where
  status : CondStatus
  reason : String
  message : String
deriving DecidableEq, Repr

/-- The ordered condition collection of operator-lib, keyed by condition type. -/
abbrev Conditions := List (String × Cond)

/-- Lookup a condition by its type. -/
def getCondition (cs : Conditions) (t : String) : Option Cond :=
  cs.lookup t

/-- ConditionTrue of operator-lib: the condition exists and its status is True. -/
def conditionTrue (cs : Conditions) (t : String) : Bool :=
  match getCondition cs t with
  | some c => c.status == CondStatus.ctrue
  | none => false

/-- SetCondition of operator-lib: replaces the condition of the given type in
place (appending when absent) and reports whether status, reason or message
changed. -/
def setCond : Conditions → String → Cond → Conditions × Bool
  | [], t, c => ([(t, c)], true)
  | (t₁, c₁) :: rest, t, c =>
    if t₁ == t then ((t, c) :: rest, c₁ != c)
    else
      let r := setCond rest t c
      ((t₁, c₁) :: r.1, r.2)

/-- RemoveCondition of operator-lib: removes the condition of the given type and
reports whether it was present. -/
def removeCond : Conditions → String → Conditions × Bool
  | [], _ => ([], false)
  | (t₁, c₁) :: rest, t =>
    if t₁ == t then (rest, true)
    else
      let r := removeCond rest t
      ((t₁, c₁) :: r.1, r.2)

/-- A Go string-to-string map, as an association list with unique keys. -/
abbrev SMap := List (String × String)

/-- Go map indexing: the zero value (empty string) when the key is absent. -/
def mapGet (m : SMap) (k : String) : String :=
  match m.lookup k with
  | some v => v
  | none => ""

/-- Go two-valued map lookup: whether the key is present. -/
def mapHas (m : SMap) (k : String) : Bool :=
  (m.lookup k).isSome

/-- Go map assignment. -/
def mapSet : SMap → String → String → SMap
  | [], k, v => [(k, v)]
  | (k₁, v₁) :: rest, k, v =>
    if k₁ == k then (k, v) :: rest
    else (k₁, v₁) :: mapSet rest k v

/-- Go map delete. -/
def mapDel (m : SMap) (k : String) : SMap :=
  m.filter (fun p => p.1 != k)

/-- The named error values of the controller error taxonomy (apperrors). -/
inductive ErrType where
  | errTemporary
  | errPermanent
  | errInvalidSpec
  | errFunctionDomain
  | errClientK8s
  | errPodExec
  | errPodNotRunning
  | errDBOD
  | errDeploymentUpdateFailed
  | errDBUpdateFailed
  | errBuildFailed
  | errClearingCache
deriving DecidableEq, Repr

/-- The display name of a named error value, used as condition reason. -/
def errName (t : ErrType) : String :=
  match t with
  | .errTemporary => "TemporaryError"
  | .errPermanent => "PermanentError"
  | .errInvalidSpec => "InvalidSpec"
  | .errFunctionDomain => "FunctionDomainError"
  | .errClientK8s => "k8sAPIClientError"
  | .errPodExec => "ExecInPodError"
  | .errPodNotRunning => "PodNotRunning"
  | .errDBOD => "DBODError"
  | .errDeploymentUpdateFailed => "DeploymentUpdateFailed"
  | .errDBUpdateFailed => "DBUpdateFailed"
  | .errBuildFailed => "BuildFailed"
  | .errClearingCache => "Error clearing cache"

/-- An application error: one of the named error values plus a message. -/
structure AppError where
  errType : ErrType
  msg : String
deriving DecidableEq, Repr

/-- Modelled from the spec: the error-helper file defining reconcileError and
applicationError.Temporary is not among the sources here.  Section 7 of the
spec classifies infrastructure failures (API client errors, exec transport
failures, resources or pods not yet ready, generic temporary errors) as
temporary, and application failures (validation, function domain, rollout
failed, DB update failed, build failed, cache clearing) as permanent. -/
def AppError.temporary (e : AppError) : Bool :=
  match e.errType with
  | .errTemporary | .errClientK8s | .errPodExec | .errPodNotRunning | .errDBOD => true
  | _ => false

/-- The releaseID pair on the status: current and failsafe. -/
structure ReleaseIDStatus where
  current : String
  failsafe : String
deriving DecidableEq, Repr

/-- A backup record on the DrupalSite status (webservicesv1a1.Backup). -/
structure Backup where
  name : String
  date : Option Int
  expires : Option Int
deriving DecidableEq, Repr

/-- A velero Backup object, restricted to the fields the controller reads. -/
structure VeleroBackup where
  name : String
  completionTimestamp : Option Int
  expiration : Option Int
  phaseCompleted : Bool
deriving DecidableEq, Repr

/-- The DrupalSite status subresource. -/
structure DrupalSiteStatus where
  conditions : Conditions
  releaseID : ReleaseIDStatus
  servingPodImage : String
  availableBackups : List Backup
deriving DecidableEq, Repr

/-- The version field of the DrupalSite spec. -/
structure SiteVersion where
  name : String
  releaseSpec : String
deriving DecidableEq, Repr

/-- The configuration block of the DrupalSite spec (claim-relevant fields). -/
structure SiteConfiguration where
  cloneFrom : String
  extraConfigurationRepo : String
  webDAVPassword : String
deriving DecidableEq, Repr

/-- The DrupalSite spec (claim-relevant fields). -/
structure DrupalSiteSpec where
  version : SiteVersion
  siteURL : String
  publish : Bool
  mainSite : Bool
  configuration : SiteConfiguration
deriving DecidableEq, Repr

/-- A DrupalSite custom resource as held in memory during a reconcile pass. -/
structure DrupalSite where
  name : String
  nsName : String
  labels : SMap
  annotations : SMap
  finalizers : List String
  deletionTimestamp : Option Int
  spec : DrupalSiteSpec
  status : DrupalSiteStatus
deriving DecidableEq, Repr

/-- finalizerStr added to every DrupalSite created. -/
def finalizerStr : String := "controller.drupalsite.webservices.cern.ch"

/-- releaseID is the image tag to use depending on the version and releaseSpec. -/
def releaseID (d : DrupalSite) : String :=
  d.spec.version.name ++ "-" ++ d.spec.version.releaseSpec

/-- databaseSecretName of the DBOD provisioned secret. -/
def databaseSecretName (d : DrupalSite) : String :=
  "dbcredentials-" ++ d.name

/-- Modelled from the spec: the API types file defining the CloneFromNothing
sentinel is not among the sources; the claims do not depend on its exact
value, only on it being a fixed non-empty sentinel. -/
def cloneFromNothing : String := "__nothing__"

/-- Replace the condition collection of a site. -/
def withConditions (d : DrupalSite) (cs : Conditions) : DrupalSite :=
  { d with status := { d.status with conditions := cs } }

/-- setConditionStatus of the status helpers: sets the condition with the
reason and message taken from the error, when one is given. -/
def setConditionStatus (d : DrupalSite) (condType : String) (statusFlag : Bool)
    (err : Option AppError) (statusUnknown : Bool) : DrupalSite × Bool :=
  let statusStr : CondStatus :=
    if statusUnknown then .cunknown else if statusFlag then .ctrue else .cfalse
  let condition : Cond :=
    match err with
    | some e => { status := statusStr, reason := errName e.errType, message := e.msg }
    | none => { status := statusStr, reason := "", message := "" }
  let r := setCond d.status.conditions condType condition
  (withConditions d r.1, r.2)

/-- setReady sets the Ready condition to True. -/
def setReady (d : DrupalSite) : DrupalSite × Bool :=
  let r := setCond d.status.conditions "Ready" { status := .ctrue, reason := "", message := "" }
  (withConditions d r.1, r.2)

/-- setNotReady sets the Ready condition to False with the transient error. -/
def setNotReady (d : DrupalSite) (transientErr : Option AppError) : DrupalSite × Bool :=
  setConditionStatus d "Ready" false transientErr false

/-- setInitialized sets the Initialized condition to True. -/
def setInitialized (d : DrupalSite) : DrupalSite × Bool :=
  let r := setCond d.status.conditions "Initialized" { status := .ctrue, reason := "", message := "" }
  (withConditions d r.1, r.2)

/-- setNotInitialized sets the Initialized condition to False. -/
def setNotInitialized (d : DrupalSite) : DrupalSite × Bool :=
  let r := setCond d.status.conditions "Initialized" { status := .cfalse, reason := "", message := "" }
  (withConditions d r.1, r.2)

/-- setErrorCondition sets the Error condition to True with the given error. -/
def setErrorCondition (d : DrupalSite) (err : Option AppError) : DrupalSite × Bool :=
  setConditionStatus d "Error" true err false

/-- setDBUpdatesPending sets the DBUpdatesPending condition to True. -/
def setDBUpdatesPending (d : DrupalSite) : DrupalSite × Bool :=
  let r := setCond d.status.conditions "DBUpdatesPending" { status := .ctrue, reason := "", message := "" }
  (withConditions d r.1, r.2)

/-- RemoveCondition lifted to the site. -/
def removeSiteCondition (d : DrupalSite) (t : String) : DrupalSite × Bool :=
  let r := removeCond d.status.conditions t
  (withConditions d r.1, r.2)

/-- setUpdateInProgress sets the updateInProgress annotation on the site and
reports whether it was not already the string true. -/
def setUpdateInProgress (d : DrupalSite) : DrupalSite × Bool :=
  if mapGet d.annotations "updateInProgress" == "true" then (d, false)
  else ({ d with annotations := mapSet d.annotations "updateInProgress" "true" }, true)

/-- unsetUpdateInProgress removes the updateInProgress annotation from the site
and reports whether the key was present. -/
def unsetUpdateInProgress (d : DrupalSite) : DrupalSite × Bool :=
  if d.annotations.length != 0 then
    if mapHas d.annotations "updateInProgress" then
      ({ d with annotations := mapDel d.annotations "updateInProgress" }, true)
    else (d, false)
  else (d, false)

/-- backupListUpdateNeeded: the element-wise name comparison loop. -/
def backupNamesDiffer : List VeleroBackup → List Backup → Bool
  | v :: vs, s :: ss => v.name != s.name || backupNamesDiffer vs ss
  | _, _ => false

/-- backupListUpdateNeeded tells whether the velero backup list and the status
backup list differ (by length or by some name at the same position). -/
def backupListUpdateNeeded (veleroBackupsList : List VeleroBackup)
    (statusBackupsList : List Backup) : Bool :=
  if veleroBackupsList.length != statusBackupsList.length then true
  else backupNamesDiffer veleroBackupsList statusBackupsList

/-- updateBackupListStatus converts the velero backup list into status form. -/
def updateBackupListStatus (veleroBackupsList : List VeleroBackup) : List Backup :=
  veleroBackupsList.map
    (fun v => { name := v.name, date := v.completionTimestamp, expires := v.expiration })

/-- Pod phases (the empty constructor is the Go zero value). -/
inductive PodPhase where
  | running
  | pending
  | succeeded
  | failed
  | unknown
  | emptyPhase
deriving DecidableEq, Repr

/-- A pod, restricted to the fields the controller reads.  The creation
timestamp is in seconds. -/
structure Pod where
  name : String
  releaseIDAnnot : String
  phase : PodPhase
  creationTimestamp : Int
deriving DecidableEq, Repr

/-- The cluster objects the embedded controller functions read and write.
Reads are modelled as lookups in this record (a missing object is NotFound). -/
structure Cluster where
  deployment : Option String
  deploymentReadyReplicas : Nat
  routes : List String
  oidcReturnURIs : List String
  schedules : List String
  installJobSucceeded : Option Nat
  cloneJobSucceeded : Option Nat
  dbodInstance : Option String
  pods : Option (List Pod)
deriving DecidableEq, Repr

/-- Outcome of an updateCRorFailReconcile / updateCRStatusOrFailReconcile
cluster write. -/
inductive WriteResult where
  | ok
  | conflict
  | otherErr
deriving DecidableEq, Repr

/-- Exec-channel commands issued during a pass, for ordering arguments. -/
inductive ExecCmd where
  | checkInstalled
  | checkUpdb
  | takeBackup
  | runUpdb
  | restoreBackup
  | cacheReload
deriving DecidableEq, Repr

/-- A persist of the site resource or of its status subresource. -/
inductive Persist where
  | cr
  | statusSub
deriving DecidableEq, Repr

/-- Outcome of the initial fetch of the DrupalSite resource. -/
inductive GetSiteResult where
  | found
  | notFound
  | getErr
deriving DecidableEq, Repr

/-- The external world during one reconcile pass: each oracle field is the
outcome the corresponding external call would report.  Exec results are
some stdout on success and none on transport error or non-empty stderr
(mirroring execToServerPodErrOnStderr). -/
structure Env where
  getSite : GetSiteResult
  now : Int
  defaultDomain : String
  siteBuilderImage : String
  genPassword : String
  specValid : Bool
  productionSites : Option (List String)
  deployGetErr : Bool
  deployWriteErr : Bool
  rollbackWriteErr : Bool
  deleteErr : Bool
  scheduleDeleteErr : Bool
  resourceErr : String → Bool
  execCheckInstalled : Option String
  execCondCheckUpdb : Option String
  execCheckUpdb : Option String
  execTakeBackup : Option String
  execRunUpdb : Option String
  execRestoreBackup : Option String
  execCacheReload1 : Option String
  execCacheReload2 : Option String
  statusWrite : WriteResult
  crWrite : WriteResult
  backupList : Option (List VeleroBackup)

/-- The result a Reconcile invocation hands back to controller-runtime. -/
structure RecResult where
  requeue : Bool
  err : Option AppError
deriving DecidableEq, Repr

/-- updateCRorFailReconcile: update the custom resource; a conflict requeues
without error, any other failure is returned as the pass error. -/
def updateCRorFailReconcile (w : WriteResult) (d : DrupalSite) : DrupalSite × RecResult :=
  match w with
  | .conflict => (d, { requeue := true, err := none })
  | .ok => (d, { requeue := false, err := none })
  | .otherErr =>
    (d, { requeue := false,
          err := some { errType := .errClientK8s, msg := "failed to update the application" } })

/-- updateCRStatusOrFailReconcile: update the status subresource; a conflict
requeues without error, any other failure is returned as the pass error. -/
def updateCRStatusOrFailReconcile (w : WriteResult) (d : DrupalSite) : DrupalSite × RecResult :=
  match w with
  | .conflict => (d, { requeue := true, err := none })
  | .ok => (d, { requeue := false, err := none })
  | .otherErr =>
    (d, { requeue := false,
          err := some { errType := .errClientK8s, msg := "failed to update the application status" } })

/-- getPodForVersion fetches the pod list for the deployment and returns the
first pod annotated with the wanted releaseID. -/
def getPodForVersion (c : Cluster) (relID : String) : Except AppError Pod :=
  match c.pods with
  | none => .error { errType := .errClientK8s, msg := "pod list failed" }
  | some [] => .error { errType := .errTemporary, msg := "No pod found with given labels" }
  | some pods =>
    match pods.find? (fun p => p.releaseIDAnnot == relID) with
    | some p => .ok p
    | none => .error { errType := .errClientK8s, msg := "" }

/-- The phase checks of didVersionRollOutSucceed on the located pod.  A pod in
Pending phase is tolerated for three minutes from its creation timestamp. -/
def rolloutPodCheck (now : Int) (p : Pod) : Bool × Option AppError :=
  if p.phase == .failed || p.phase == .unknown then
    (false, some { errType := .errDeploymentUpdateFailed, msg := "Pod did not roll out successfully" })
  else if p.phase == .pending then
    if now - p.creationTimestamp < 3 * 60 then
      (true, some { errType := .errPodNotRunning, msg := "Waiting for pod to start" })
    else
      (false, some { errType := .errDeploymentUpdateFailed, msg := "Pod failed to start after grace period" })
  else (false, none)

/-- didVersionRollOutSucceed checks whether the deployment has rolled out the
new pods successfully: it locates the pod of the desired release and inspects
its phase.  A temporary lookup error is re-wrapped as a client error; on the
(unreachable) non-temporary lookup error the Go code falls through with the
zero-valued pod. -/
def didVersionRollOutSucceed (now : Int) (c : Cluster) (d : DrupalSite) : Bool × Option AppError :=
  match getPodForVersion c (releaseID d) with
  | .error e =>
    if e.temporary then (false, some { errType := .errClientK8s, msg := e.msg })
    else rolloutPodCheck now { name := "", releaseIDAnnot := "", phase := .emptyPhase, creationTimestamp := 0 }
  | .ok pod => rolloutPodCheck now pod

/-- Outcome classification of controller-runtime CreateOrUpdate. -/
inductive OpResult where
  | created
  | updated
  | unchanged
deriving DecidableEq, Repr

/-- ensureUpdatedDeployment converges the serving deployment to the releaseID
derived from the spec and reports whether the call changed anything. -/
def ensureUpdatedDeployment (env : Env) (c : Cluster) (d : DrupalSite) :
    Except AppError (Cluster × OpResult) :=
  if (databaseSecretName d).length != 0 then
    if env.deployWriteErr then
      .error { errType := .errClientK8s, msg := "deployment write failed" }
    else
      match c.deployment with
      | none => .ok ({ c with deployment := some (releaseID d) }, .created)
      | some rid =>
        if rid == releaseID d then .ok (c, .unchanged)
        else .ok ({ c with deployment := some (releaseID d) }, .updated)
  else .error { errType := .errDBOD, msg := "Database secret value empty" }

/-- rollBackCodeUpdate converges the serving deployment back to the failsafe
release identifier held on the status. -/
def rollBackCodeUpdate (env : Env) (c : Cluster) (d : DrupalSite) :
    Except AppError Cluster :=
  if (databaseSecretName d).length != 0 then
    if env.rollbackWriteErr then
      .error { errType := .errClientK8s, msg := "rollback write failed" }
    else .ok { c with deployment := some d.status.releaseID.failsafe }
  else .ok c

/-- The result quadruple of updateDrupalVersion, plus the site, cluster and
exec trace it leaves behind. -/
structure UpdateVersionResult where
  site : DrupalSite
  cluster : Cluster
  update : Bool
  requeue : Bool
  err : Option AppError
  errorMessage : String
  execs : List ExecCmd
deriving DecidableEq, Repr

/-- The tail of updateDrupalVersion after the cache-reload exec reported a
stdout: a non-empty stdout is an application-level failure (roll back, set
CodeUpdateFailed), otherwise a previously set CodeUpdateFailed is cleared. -/
def afterCacheReload (env : Env) (c : Cluster) (d : DrupalSite) (sout : String)
    (tr : List ExecCmd) : UpdateVersionResult :=
  if sout != "" then
    let c₂ :=
      match rollBackCodeUpdate env c d with
      | .ok cr => cr
      | .error _ => c
    let ds := setConditionStatus d "CodeUpdateFailed" true
      (some { errType := .errClearingCache, msg := "Error clearing cache" }) false
    { site := ds.1, cluster := c₂, update := true, requeue := false, err := none,
      errorMessage := "", execs := tr }
  else if conditionTrue d.status.conditions "CodeUpdateFailed" then
    let dr := removeSiteCondition d "CodeUpdateFailed"
    { site := dr.1, cluster := c, update := true, requeue := false, err := none,
      errorMessage := "", execs := tr }
  else
    { site := d, cluster := c, update := false, requeue := false, err := none,
      errorMessage := "", execs := tr }

/-- updateDrupalVersion updates the drupal version of the running site:
converge the deployment, check the rollout, reload caches, and on permanent
rollout failure roll back to the failsafe and set CodeUpdateFailed. -/
def updateDrupalVersion (env : Env) (c : Cluster) (d : DrupalSite) : UpdateVersionResult :=
  match ensureUpdatedDeployment env c d with
  | .error e =>
    { site := d, cluster := c, update := false, requeue := false, err := some e,
      errorMessage := "%v while deploying the updated Drupal images of version", execs := [] }
  | .ok (c₁, result) =>
    if result == OpResult.unchanged then
      let rc := didVersionRollOutSucceed env.now c₁ d
      match rc.2 with
      | some e =>
        if e.temporary then
          { site := d, cluster := c₁, update := false, requeue := false, err := some e,
            errorMessage := "Temporary error while checking for version roll out", execs := [] }
        else
          let e₁ : AppError :=
            { e with msg := "Failed to update version " ++ releaseID d ++ ": " ++ e.msg }
          match rollBackCodeUpdate env c₁ d with
          | .error re =>
            { site := d, cluster := c₁, update := false, requeue := false, err := some re,
              errorMessage := "Error while rolling back version", execs := [] }
          | .ok c₂ =>
            let ds := setConditionStatus d "CodeUpdateFailed" true (some e₁) false
            { site := ds.1, cluster := c₂, update := true, requeue := false, err := none,
              errorMessage := "", execs := [] }
      | none =>
        if rc.1 then
          { site := d, cluster := c₁, update := false, requeue := true, err := none,
            errorMessage := "", execs := [] }
        else
          match env.execCacheReload1 with
          | none =>
            match env.execCacheReload2 with
            | none =>
              { site := d, cluster := c₁, update := true, requeue := false, err := none,
                errorMessage := "", execs := [.cacheReload, .cacheReload] }
            | some sout => afterCacheReload env c₁ d sout [.cacheReload, .cacheReload]
          | some sout => afterCacheReload env c₁ d sout [.cacheReload]
    else
      { site := d, cluster := c₁, update := false, requeue := true, err := none,
        errorMessage := "", execs := [] }

/-- Result of updateDBSchema: the site it leaves behind, the update flag and
the exec commands it issued. -/
structure UpdateSchemaResult where
  site : DrupalSite
  update : Bool
  execs : List ExecCmd
deriving DecidableEq, Repr

/-- The clearing tail of updateDBSchema: on no pending updates, remove
DBUpdatesPending (and then DBUpdatesFailed) when set. -/
def schemaClearConditions (d : DrupalSite) (tr : List ExecCmd) : UpdateSchemaResult :=
  if conditionTrue d.status.conditions "DBUpdatesPending" then
    let d₁ := (removeSiteCondition d "DBUpdatesPending").1
    let d₂ :=
      if conditionTrue d₁.status.conditions "DBUpdatesFailed" then
        (removeSiteCondition d₁ "DBUpdatesFailed").1
      else d₁
    { site := d₂, update := true, execs := tr }
  else { site := d, update := false, execs := tr }

/-- updateDBSchema runs the schema-check; when updates are pending it first
sets DBUpdatesPending (returning for a persist when that changed anything),
then takes a backup, runs the migration, and on migration failure restores
the backup and sets DBUpdatesFailed. -/
def updateDBSchema (env : Env) (d : DrupalSite) : UpdateSchemaResult :=
  match env.execCheckUpdb with
  | none => { site := d, update := true, execs := [.checkUpdb] }
  | some sout =>
    if sout != "" then
      let sp := setDBUpdatesPending d
      if sp.2 then { site := sp.1, update := true, execs := [.checkUpdb] }
      else
        match env.execTakeBackup with
        | none =>
          let dc := setConditionStatus sp.1 "DBUpdatesFailed" true
            (some { errType := .errPodExec, msg := "taking backup failed" }) false
          { site := dc.1, update := true, execs := [.checkUpdb, .takeBackup] }
        | some _ =>
          match env.execRunUpdb with
          | none =>
            match env.execRestoreBackup with
            | none =>
              let dc := setConditionStatus sp.1 "DBUpdatesFailed" true
                (some { errType := .errDBUpdateFailed, msg := "restore from backup failed" }) false
              { site := dc.1, update := true,
                execs := [.checkUpdb, .takeBackup, .runUpdb, .restoreBackup] }
            | some _ =>
              let dc := setConditionStatus sp.1 "DBUpdatesFailed" true
                (some { errType := .errDBUpdateFailed, msg := "running updb failed" }) false
              { site := dc.1, update := true,
                execs := [.checkUpdb, .takeBackup, .runUpdb, .restoreBackup] }
          | some _ =>
            schemaClearConditions sp.1 [.checkUpdb, .takeBackup, .runUpdb]
    else schemaClearConditions d [.checkUpdb]

/-- Add a name to a list of object names when absent (CreateOrUpdate). -/
def listAdd (l : List String) (n : String) : List String :=
  if l.contains n then l else l ++ [n]

/-- isDBODProvisioned checks the DBOD custom resource for a dbodInstance. -/
def isDBODProvisioned (c : Cluster) : Bool :=
  match c.dbodInstance with
  | none => false
  | some s => s.length > 0

/-- isDrupalSiteReady checks the ready replicas of the serving deployment. -/
def isDrupalSiteReady (env : Env) (c : Cluster) : Bool :=
  if env.deployGetErr then false
  else
    match c.deployment with
    | some _ => c.deploymentReadyReplicas != 0
    | none => false

/-- isDrupalSiteInstalled checks whether the site is initialized by running the
check-if-installed script in the server pod (requires the site to be ready). -/
def isDrupalSiteInstalled (env : Env) (c : Cluster) : Bool :=
  if isDrupalSiteReady env c then
    match env.execCheckInstalled with
    | some _ => true
    | none => false
  else false

/-- isInstallJobCompleted checks whether the site-install job has succeeded. -/
def isInstallJobCompleted (c : Cluster) : Bool :=
  match c.installJobSucceeded with
  | some n => n != 0
  | none => false

/-- isCloneJobCompleted checks whether the clone job has succeeded. -/
def isCloneJobCompleted (c : Cluster) : Bool :=
  match c.cloneJobSucceeded with
  | some n => n != 0
  | none => false

/-- updateNeeded checks whether a code update is required: the deployed
releaseID annotation differs from the desired one, while Ready and
Initialized. -/
def updateNeeded (env : Env) (c : Cluster) (d : DrupalSite) : Bool × Option AppError :=
  if conditionTrue d.status.conditions "Ready" && conditionTrue d.status.conditions "Initialized" then
    if env.deployGetErr then
      (false, some { errType := .errClientK8s, msg := "failed to get deployment" })
    else
      match c.deployment with
      | none => (false, some { errType := .errClientK8s, msg := "deployment not found" })
      | some rid =>
        if rid != releaseID d
            && conditionTrue d.status.conditions "Ready"
            && conditionTrue d.status.conditions "Initialized" then
          (true, none)
        else (false, none)
  else (false, none)

/-- sitebuilderImageRefToUse: the S2I image stream tag when an extra
configuration repo is set, the sitebuilder base image otherwise (the Name of
the object reference). -/
def sitebuilderImageRefToUse (env : Env) (d : DrupalSite) (relID : String) : String :=
  if d.spec.configuration.extraConfigurationRepo.length > 0 then
    "sitebuilder-s2i-" ++ d.name ++ ":" ++ relID
  else env.siteBuilderImage ++ ":" ++ relID

/-- ensureResourceX ensures the requested resource kind exists and matches the
desired state.  Only the cluster objects the claims are about (serving
deployment, routes, OIDC return URIs, backup schedule) are tracked; for the
other kinds only the client error outcome is modelled.  Note that the
oidc_return_uri case of the source logs a failed CreateOrUpdate but returns
nil. -/
def ensureResourceX (env : Env) (c : Cluster) (d : DrupalSite) (resType : String) :
    Cluster × Option AppError :=
  let clientErr : Option AppError := some { errType := .errClientK8s, msg := resType }
  match resType with
  | "is_s2i" => if env.resourceErr resType then (c, clientErr) else (c, none)
  | "bc_s2i" => if env.resourceErr resType then (c, clientErr) else (c, none)
  | "webdav_secret" => if env.resourceErr resType then (c, clientErr) else (c, none)
  | "deploy_drupal" =>
    if c.deployment.isSome
        && (mapGet d.annotations "updateInProgress" == "true"
            || conditionTrue d.status.conditions "CodeUpdateFailed"
            || conditionTrue d.status.conditions "DBUpdatesFailed") then
      (c, none)
    else if (databaseSecretName d).length != 0 then
      if env.resourceErr resType then (c, clientErr)
      else ({ c with deployment := some (releaseID d) }, none)
    else (c, none)
  | "svc_nginx" => if env.resourceErr resType then (c, clientErr) else (c, none)
  | "pvc_drupal" => if env.resourceErr resType then (c, clientErr) else (c, none)
  | "route" =>
    if env.resourceErr resType then (c, clientErr)
    else ({ c with routes := listAdd c.routes d.name }, none)
  | "oidc_return_uri" =>
    if env.resourceErr resType then (c, none)
    else ({ c with oidcReturnURIs := listAdd c.oidcReturnURIs d.name }, none)
  | "webdav_route" =>
    if env.resourceErr resType then (c, clientErr)
    else ({ c with routes := listAdd c.routes ("webdav-" ++ d.name) }, none)
  | "site_install_job" =>
    if (databaseSecretName d).length == 0 then (c, none)
    else if env.resourceErr resType then (c, clientErr)
    else (c, none)
  | "clone_job" =>
    if (databaseSecretName d).length != 0 then
      if env.resourceErr resType then (c, clientErr) else (c, none)
    else (c, none)
  | "cm_php" => if env.resourceErr resType then (c, clientErr) else (c, none)
  | "cm_nginx" => if env.resourceErr resType then (c, clientErr) else (c, none)
  | "cm_settings" => if env.resourceErr resType then (c, clientErr) else (c, none)
  | "dbod_cr" => if env.resourceErr resType then (c, clientErr) else (c, none)
  | "backup_schedule" =>
    if env.resourceErr resType then (c, clientErr)
    else ({ c with schedules := listAdd c.schedules d.name }, none)
  | _ => (c, some { errType := .errFunctionDomain, msg := "" })

/-- ensureNoRoute deletes the route named after the site, when present. -/
def ensureNoRoute (env : Env) (c : Cluster) (d : DrupalSite) : Cluster × Option AppError :=
  if c.routes.contains d.name then
    if env.deleteErr then (c, some { errType := .errClientK8s, msg := "delete route" })
    else ({ c with routes := c.routes.erase d.name }, none)
  else (c, none)

/-- ensureNoWebDAVRoute: the source fetches the route named after the site
(d.Name) here as well, not the webdav- prefixed name under which the WebDAV
route is created. -/
def ensureNoWebDAVRoute (env : Env) (c : Cluster) (d : DrupalSite) : Cluster × Option AppError :=
  if c.routes.contains d.name then
    if env.deleteErr then (c, some { errType := .errClientK8s, msg := "delete webdav route" })
    else ({ c with routes := c.routes.erase d.name }, none)
  else (c, none)

/-- ensureNoReturnURI: the source fetches an OidcReturnURI with the empty name
(a fresh zero-valued object), so the lookup is for the empty string. -/
def ensureNoReturnURI (env : Env) (c : Cluster) (_d : DrupalSite) : Cluster × Option AppError :=
  if c.oidcReturnURIs.contains "" then
    if env.deleteErr then (c, some { errType := .errClientK8s, msg := "delete oidc return uri" })
    else ({ c with oidcReturnURIs := c.oidcReturnURIs.erase "" }, none)
  else (c, none)

/-- ensureNoSchedule deletes the velero schedule named after the site. -/
def ensureNoSchedule (env : Env) (c : Cluster) (d : DrupalSite) : Cluster × Option AppError :=
  if c.schedules.contains d.name then
    if env.scheduleDeleteErr then (c, some { errType := .errClientK8s, msg := "delete schedule" })
    else ({ c with schedules := c.schedules.erase d.name }, none)
  else (c, none)

/-- Accumulator for ensureResources: cluster, the kinds that were ensured,
and the transient errors collected so far. -/
structure EnsureAcc where
  cluster : Cluster
  ensured : List String
  errs : List AppError
deriving DecidableEq, Repr

/-- One ensureResourceX step of ensureResources. -/
def ensureStep (env : Env) (d : DrupalSite) (acc : EnsureAcc) (resType : String) : EnsureAcc :=
  let r := ensureResourceX env acc.cluster d resType
  { cluster := r.1,
    ensured := acc.ensured ++ [resType],
    errs := acc.errs ++ (match r.2 with | some e => [e] | none => []) }

/-- One deletion step of ensureResources. -/
def deleteStep (acc : EnsureAcc)
    (f : Cluster → Cluster × Option AppError) : EnsureAcc :=
  let r := f acc.cluster
  { cluster := r.1,
    ensured := acc.ensured,
    errs := acc.errs ++ (match r.2 with | some e => [e] | none => []) }

/-- ensureResources ensures the presence of all the resources the DrupalSite
needs: build configs and image streams when an extra configuration repo is
set, the data layer, the serving layer, ingress only when Initialized and
publish, and the backup schedule when Initialized and Ready.  Without ingress
it deletes the WebDAV route, the route and the OIDC return URI instead. -/
def ensureResources (env : Env) (c : Cluster) (d : DrupalSite) : EnsureAcc :=
  let s0 : EnsureAcc := { cluster := c, ensured := [], errs := [] }
  let s1 :=
    if d.spec.configuration.extraConfigurationRepo.length > 0 then
      ensureStep env d (ensureStep env d s0 "is_s2i") "bc_s2i"
    else s0
  let s2 := ensureStep env d s1 "pvc_drupal"
  let s3 := ensureStep env d s2 "dbod_cr"
  let s4 := ensureStep env d s3 "webdav_secret"
  let s5 := ensureStep env d s4 "cm_php"
  let s6 := ensureStep env d s5 "cm_nginx"
  let s7 := ensureStep env d s6 "cm_settings"
  let s8 := if isDBODProvisioned s7.cluster then ensureStep env d s7 "deploy_drupal" else s7
  let s9 := ensureStep env d s8 "svc_nginx"
  let s10 :=
    if isDBODProvisioned s9.cluster then
      if d.spec.configuration.cloneFrom == cloneFromNothing then
        ensureStep env d s9 "site_install_job"
      else ensureStep env d s9 "clone_job"
    else s9
  let s11 :=
    if conditionTrue d.status.conditions "Initialized" && d.spec.publish then
      ensureStep env d (ensureStep env d (ensureStep env d s10 "webdav_route") "route") "oidc_return_uri"
    else
      deleteStep (deleteStep (deleteStep s10 (fun cl => ensureNoWebDAVRoute env cl d))
        (fun cl => ensureNoRoute env cl d)) (fun cl => ensureNoReturnURI env cl d)
  let s12 :=
    if conditionTrue d.status.conditions "Initialized" && conditionTrue d.status.conditions "Ready" then
      ensureStep env d s11 "backup_schedule"
    else s11
  s12

/-- Modelled from the spec: the error-helper file defining concat is not among
the sources; it merges the transient errors of resource convergence into one
error that keeps their classification (all are client errors, temporary). -/
def concatErrs (l : List AppError) : AppError :=
  { errType := .errClientK8s, msg := String.intercalate "; " (l.map (fun e => e.msg)) }

/-- checkNewBackups lists the velero backups of the site and keeps those in
Completed phase. -/
def checkNewBackups (env : Env) : Except AppError (List VeleroBackup) :=
  match env.backupList with
  | none => .error { errType := .errClientK8s, msg := "backup list failed" }
  | some l => .ok (l.filter (fun b => b.phaseCompleted))

/-- validateSpec validates the spec against the structural constraints
(govalidator outcome, an external collaborator). -/
def validateSpec (env : Env) : Option AppError :=
  if env.specValid then none
  else some { errType := .errInvalidSpec, msg := "failed to validate DrupalSite spec" }

/-- Result of ensureSpecFinalizer: the possibly defaulted site, whether the
finalizer was added, and a client error from the clone-source listing. -/
structure SpecFinalizerResult where
  site : DrupalSite
  update : Bool
  err : Option AppError
deriving DecidableEq, Repr

/-- The finalizer step of ensureSpecFinalizer: add the finalizer when absent
(only this sets the update flag). -/
def addSpecFinalizer (d : DrupalSite) : DrupalSite × Bool :=
  if d.finalizers.contains finalizerStr then (d, false)
  else ({ d with finalizers := d.finalizers ++ [finalizerStr] }, true)

/-- The URL defaulting step of ensureSpecFinalizer. -/
def defaultSiteURL (env : Env) (d : DrupalSite) : DrupalSite :=
  if d.spec.siteURL == "" then
    if d.spec.mainSite then
      { d with spec := { d.spec with siteURL := d.nsName ++ "." ++ env.defaultDomain } }
    else
      { d with spec :=
          { d.spec with siteURL := d.name ++ "-" ++ d.nsName ++ "." ++ env.defaultDomain } }
  else d

/-- The WebDAV password defaulting step of ensureSpecFinalizer. -/
def defaultWebDAVPassword (env : Env) (d : DrupalSite) : DrupalSite :=
  if d.spec.configuration.webDAVPassword == "" then
    { d with spec :=
        { d.spec with configuration :=
            { d.spec.configuration with webDAVPassword := env.genPassword } } }
  else d

/-- The production label maintenance step of ensureSpecFinalizer. -/
def fixProductionLabel (d : DrupalSite) : DrupalSite :=
  let prodExists := mapHas d.labels "production"
  let d₁ :=
    if d.spec.mainSite && !prodExists then
      { d with labels := mapSet d.labels "production" "true" }
    else d
  if !d₁.spec.mainSite && prodExists then { d₁ with labels := mapDel d₁.labels "production" }
  else d₁

/-- Write a clone source into the spec. -/
def setCloneFrom (d : DrupalSite) (src : String) : DrupalSite :=
  { d with spec :=
      { d.spec with configuration := { d.spec.configuration with cloneFrom := src } } }

/-- The clone-source auto-selection step of ensureSpecFinalizer: when no clone
source is set, pick the first production site of the namespace (when the site
is neither initialized nor the main site), or the nothing sentinel. -/
def selectCloneFrom (env : Env) (d : DrupalSite) (update : Bool) : SpecFinalizerResult :=
  if d.spec.configuration.cloneFrom == "" then
    match env.productionSites with
    | none =>
      { site := d, update := false,
        err := some { errType := .errClientK8s, msg := "listing drupalsites failed" } }
    | some sites =>
      if sites.length != 0
          && !(conditionTrue d.status.conditions "Initialized")
          && !d.spec.mainSite then
        { site := setCloneFrom d (sites.headD ""), update := update, err := none }
      else { site := setCloneFrom d cloneFromNothing, update := update, err := none }
  else { site := d, update := update, err := none }

/-- ensureSpecFinalizer ensures the finalizer is present (only this sets the
update flag), defaults the site URL and the WebDAV password, maintains the
production label, and auto-selects a clone source among production sites when
none is set. -/
def ensureSpecFinalizer (env : Env) (d : DrupalSite) : SpecFinalizerResult :=
  let p₁ := addSpecFinalizer d
  let d₂ := defaultSiteURL env p₁.1
  let d₃ := defaultWebDAVPassword env d₂
  let d₄ := fixProductionLabel d₃
  selectCloneFrom env d₄ p₁.2

/-- The outcome of one reconcile pass: the in-memory site and cluster it
leaves behind, the persists it performed, the exec commands it issued and the
result handed back to controller-runtime. -/
structure PassResult where
  site : DrupalSite
  cluster : Cluster
  persists : List Persist
  execs : List ExecCmd
  res : RecResult
deriving DecidableEq, Repr

/-- Persist the status subresource and end the pass with its result. -/
def persistStatusExit (env : Env) (c : Cluster) (d : DrupalSite) (ex : List ExecCmd) : PassResult :=
  { site := d, cluster := c, persists := [.statusSub], execs := ex,
    res := (updateCRStatusOrFailReconcile env.statusWrite d).2 }

/-- The handleTransientErr closure of Reconcile: sets Ready to False when asked
to, persists the status discarding the persist result, and returns without
requeue; the error it returns on the temporary branch is the captured err
variable of the initial fetch, which is nil on every path that reaches it. -/
def handleTransientErrResult (_env : Env) (c : Cluster) (d : DrupalSite)
    (transientErr : AppError) (statusArg : String) (ex : List ExecCmd) : PassResult :=
  let d₁ :=
    if statusArg == "Ready" then (setConditionStatus d "Ready" false (some transientErr) false).1
    else d
  { site := d₁, cluster := c, persists := [.statusSub], execs := ex,
    res := { requeue := false, err := none } }

/-- Step 11 of the pass: reconcile the list of completed backups against the
status; the pass returns the recorded non-fatal error when it runs through. -/
def stageBackups (env : Env) (c : Cluster) (d : DrupalSite) (nf : Option AppError)
    (ex : List ExecCmd) : PassResult :=
  match checkNewBackups env with
  | .error e =>
    { site := d, cluster := c, persists := [], execs := ex,
      res := { requeue := false, err := some e } }
  | .ok backupL =>
    if backupL.length != 0 then
      if backupListUpdateNeeded backupL d.status.availableBackups then
        let d₁ := { d with status :=
            { d.status with availableBackups := updateBackupListStatus backupL } }
        persistStatusExit env c d₁ ex
      else
        { site := d, cluster := c, persists := [], execs := ex,
          res := { requeue := false, err := nf } }
    else
      { site := d, cluster := c, persists := [], execs := ex,
        res := { requeue := false, err := nf } }

/-- Step 10 of the pass: advance the failsafe to the releaseID derived from
the spec when current and failsafe differ and no fatal condition is set. -/
def stageFailsafe (env : Env) (c : Cluster) (d : DrupalSite) (nf : Option AppError)
    (ex : List ExecCmd) : PassResult :=
  if d.status.releaseID.current != d.status.releaseID.failsafe
      && !(conditionTrue d.status.conditions "DBUpdatesFailed")
      && !(conditionTrue d.status.conditions "CodeUpdateFailed") then
    let d₁ := { d with status :=
        { d.status with
          releaseID := { d.status.releaseID with failsafe := releaseID d },
          servingPodImage := sitebuilderImageRefToUse env d (releaseID d) } }
    persistStatusExit env c d₁ ex
  else stageBackups env c d nf ex

/-- Step 9 of the pass: requeue while the DBOD database is not provisioned,
setting Ready to False (the persist result of that status write is
discarded). -/
def stageDBOD (env : Env) (c : Cluster) (d : DrupalSite) (nf : Option AppError)
    (ex : List ExecCmd) : PassResult :=
  if !(isDBODProvisioned c) then
    let sn := setNotReady d (some { errType := .errDBOD, msg := errName ErrType.errDBOD })
    { site := sn.1, cluster := c, persists := if sn.2 then [.statusSub] else [],
      execs := ex, res := { requeue := true, err := none } }
  else stageFailsafe env c d nf ex

/-- Step 8 of the pass: clear the updateInProgress annotation once the update
workflows have quiesced. -/
def stageUnset (env : Env) (c : Cluster) (d : DrupalSite) (nf : Option AppError)
    (ex : List ExecCmd) : PassResult :=
  let uu := unsetUpdateInProgress d
  if uu.2 then
    { site := uu.1, cluster := c, persists := [.cr], execs := ex,
      res := (updateCRorFailReconcile env.crWrite uu.1).2 }
  else stageDBOD env c uu.1 nf ex

/-- Step 7 of the pass: the Database-Schema-Update Workflow, run while the
update annotation is set and neither DBUpdatesFailed nor CodeUpdateFailed is
true; when it reports a change the pass persists the status and ends. -/
def stageDBUpdate (env : Env) (c : Cluster) (d : DrupalSite) (isUpd : Bool)
    (nf : Option AppError) (ex : List ExecCmd) : PassResult :=
  if isUpd && !(conditionTrue d.status.conditions "DBUpdatesFailed")
      && !(conditionTrue d.status.conditions "CodeUpdateFailed") then
    let us := updateDBSchema env d
    if us.update then persistStatusExit env c us.site (ex ++ us.execs)
    else stageUnset env c us.site nf (ex ++ us.execs)
  else stageUnset env c d nf ex

/-- Step 6 of the pass: the Code-Update Workflow, run while the update
annotation is set and neither CodeUpdateFailed nor DBUpdatesPending is true. -/
def stageCodeUpdate (env : Env) (c : Cluster) (d : DrupalSite) (isUpd : Bool)
    (nf : Option AppError) (ex : List ExecCmd) : PassResult :=
  if isUpd && !(conditionTrue d.status.conditions "CodeUpdateFailed")
      && !(conditionTrue d.status.conditions "DBUpdatesPending") then
    let uv := updateDrupalVersion env c d
    match uv.err with
    | some e =>
      if e.temporary then
        { site := uv.site, cluster := uv.cluster, persists := [], execs := ex ++ uv.execs,
          res := { requeue := false, err := some e } }
      else handleTransientErrResult env uv.cluster uv.site e "CodeUpdateFailed" (ex ++ uv.execs)
    | none =>
      if uv.update then persistStatusExit env uv.cluster uv.site (ex ++ uv.execs)
      else if uv.requeue then
        { site := uv.site, cluster := uv.cluster, persists := [], execs := ex ++ uv.execs,
          res := { requeue := true, err := none } }
      else stageDBUpdate env uv.cluster uv.site isUpd nf (ex ++ uv.execs)
  else stageDBUpdate env c d isUpd nf ex

/-- Step 5 of the pass: ensure all supporting resources; on transient errors
set Ready to False and end the pass through the transient-error handler. -/
def stageEnsure (env : Env) (c : Cluster) (d : DrupalSite) (isUpd : Bool)
    (nf : Option AppError) (ex : List ExecCmd) : PassResult :=
  let er := ensureResources env c d
  if er.errs.length != 0 then
    let te := concatErrs er.errs
    let d₁ := (setNotReady d (some te)).1
    handleTransientErrResult env er.cluster d₁ te "Ready" ex
  else stageCodeUpdate env er.cluster d isUpd nf ex

/-- The failsafe catch-up clearing of step 2: once the failsafe equals the
releaseID derived from the spec, remove the CodeUpdateFailed and
DBUpdatesFailed conditions so the site can be restored. -/
def clearFailsafeCaughtUp (d : DrupalSite) : DrupalSite × Bool :=
  if d.status.releaseID.failsafe == releaseID d then
    let q₁ :=
      if conditionTrue d.status.conditions "CodeUpdateFailed" then
        removeSiteCondition d "CodeUpdateFailed"
      else (d, false)
    let q₂ :=
      if conditionTrue q₁.1.status.conditions "DBUpdatesFailed" then
        removeSiteCondition q₁.1 "DBUpdatesFailed"
      else (q₁.1, false)
    (q₂.1, q₁.2 || q₂.2)
  else (d, false)

/-- Steps 3 to 5 of the pass after the condition re-derivation: clear the
failure conditions once the failsafe caught up, persist and end when any
condition changed, detect a needed update and flag it, then continue into
resource convergence and the update workflows. -/
def reconcileMain (env : Env) (c : Cluster) (d : DrupalSite) (update0 : Bool)
    (ex : List ExecCmd) : PassResult :=
  let pA := clearFailsafeCaughtUp d
  let d₁ := pA.1
  let upd := update0 || pA.2
  if upd then persistStatusExit env c d₁ ex
  else
    let un := updateNeeded env c d₁
    let isUpd := mapHas d₁.annotations "updateInProgress"
    let gate := !isUpd && !(conditionTrue d₁.status.conditions "CodeUpdateFailed")
        && !(conditionTrue d₁.status.conditions "DBUpdatesFailed")
    let nf : Option AppError := if gate then un.2 else none
    if gate && un.2 == none && un.1 then
      let su := setUpdateInProgress d₁
      if su.2 then
        { site := su.1, cluster := c, persists := [.cr], execs := ex,
          res := (updateCRorFailReconcile env.crWrite su.1).2 }
      else stageEnsure env c su.1 isUpd nf ex
    else stageEnsure env c d₁ isUpd nf ex

/-- The Initialized condition evaluation of step 2: while not yet Initialized,
mark it from the install-status probe or the clone job. -/
def evalInitializedCond (env : Env) (c : Cluster) (d : DrupalSite) : DrupalSite × Bool :=
  if !(conditionTrue d.status.conditions "Initialized") then
    if isDrupalSiteInstalled env c || isCloneJobCompleted c then setInitialized d
    else setNotInitialized d
  else (d, false)

/-- The current-releaseID maintenance at the top of step 2. -/
def setCurrentReleaseID (s : DrupalSite) : DrupalSite × Bool :=
  if s.status.releaseID.current != releaseID s then
    ({ s with status :=
        { s.status with releaseID := { s.status.releaseID with current := releaseID s } } },
      true)
  else (s, false)

/-- The stale-DBUpdatesPending removal of step 2 (a live schema-check that
must not run while DBUpdatesFailed is set) followed by the rest of the pass. -/
def conditionsTail (env : Env) (c : Cluster) (d₃ : DrupalSite) (u : Bool) : PassResult :=
  if conditionTrue d₃.status.conditions "DBUpdatesPending"
      && !(conditionTrue d₃.status.conditions "DBUpdatesFailed") then
    match env.execCondCheckUpdb with
    | none => persistStatusExit env c d₃ [.checkUpdb]
    | some sout =>
      let p₄ := if sout == "" then removeSiteCondition d₃ "DBUpdatesPending" else (d₃, false)
      reconcileMain env c p₄.1 (u || p₄.2) [.checkUpdb]
  else reconcileMain env c d₃ u []

/-- Step 2 of the pass: re-derive the current releaseID and the Ready and
Initialized conditions, then run the tail of the condition block. -/
def conditionsStage (env : Env) (c : Cluster) (s : DrupalSite) : PassResult :=
  let p₁ := setCurrentReleaseID s
  let d₁ := p₁.1
  let p₂ := if isDrupalSiteReady env c then setReady d₁ else setNotReady d₁ none
  let d₂ := p₂.1
  let p₃ := evalInitializedCond env c d₂
  let d₃ := p₃.1
  conditionsTail env c d₃ (p₁.2 || p₂.2 || p₃.2)

/-- Step 1 of the pass: ensure the finalizer and the defaulted spec fields,
then validate the spec; an error sets the Error condition and persists, an
added finalizer persists the resource. -/
def reconcileBody (env : Env) (c : Cluster) (d : DrupalSite) : PassResult :=
  let sf := ensureSpecFinalizer env d
  match sf.err with
  | some e =>
    let d₁ := (setErrorCondition sf.site (some e)).1
    persistStatusExit env c d₁ []
  | none =>
    if sf.update then
      { site := sf.site, cluster := c, persists := [.cr], execs := [],
        res := (updateCRorFailReconcile env.crWrite sf.site).2 }
    else
      match validateSpec env with
      | some e =>
        let d₁ := (setErrorCondition sf.site (some e)).1
        persistStatusExit env c d₁ []
      | none => conditionsStage env c sf.site

/-- cleanupDrupalSite: remove the finalizer, delete the backup schedule and
persist the resource. -/
def cleanupDrupalSite (env : Env) (c : Cluster) (d : DrupalSite) : PassResult :=
  let d₁ := { d with finalizers := d.finalizers.erase finalizerStr }
  let r := ensureNoSchedule env c d₁
  match r.2 with
  | some e =>
    { site := d₁, cluster := c, persists := [], execs := [],
      res := { requeue := false, err := some e } }
  | none =>
    { site := d₁, cluster := r.1, persists := [.cr], execs := [],
      res := (updateCRorFailReconcile env.crWrite d₁).2 }

/-- One full Reconcile pass: fetch the site, handle deletion, then run the
main body. -/
def reconcile (env : Env) (c : Cluster) (d : DrupalSite) : PassResult :=
  match env.getSite with
  | .notFound =>
    { site := d, cluster := c, persists := [], execs := [],
      res := { requeue := false, err := none } }
  | .getErr =>
    { site := d, cluster := c, persists := [], execs := [],
      res := { requeue := false, err := some { errType := .errClientK8s, msg := "Failed to get DrupalSite" } } }
  | .found =>
    if d.deletionTimestamp.isSome then
      if d.finalizers.contains finalizerStr then cleanupDrupalSite env c d
      else
        { site := d, cluster := c, persists := [], execs := [],
          res := { requeue := false, err := none } }
    else reconcileBody env c d


/-! ## Concrete fixtures used by witnesses and counterexamples -/

/-- A baseline spec: version v9-r1, published, not the main site. -/
def baseSpec : DrupalSiteSpec :=
  { version := { name := "v9", releaseSpec := "r1" },
    siteURL := "mysite-ns.webtest.cern.ch",
    publish := true,
    mainSite := false,
    configuration :=
      { cloneFrom := cloneFromNothing, extraConfigurationRepo := "", webDAVPassword := "pw" } }

/-- A baseline settled site: Ready and Initialized, current equals failsafe. -/
def baseSite : DrupalSite :=
  { name := "mysite", nsName := "ns",
    labels := [], annotations := [],
    finalizers := [finalizerStr],
    deletionTimestamp := none,
    spec := baseSpec,
    status :=
      { conditions :=
          [("Ready", { status := .ctrue, reason := "", message := "" }),
           ("Initialized", { status := .ctrue, reason := "", message := "" })],
        releaseID := { current := "v9-r1", failsafe := "v9-r1" },
        servingPodImage := "", availableBackups := [] } }

/-- A baseline cluster: serving deployment at v9-r1 with a running pod. -/
def baseCluster : Cluster :=
  { deployment := some "v9-r1", deploymentReadyReplicas := 1,
    routes := [], oidcReturnURIs := [], schedules := [],
    installJobSucceeded := none, cloneJobSucceeded := none,
    dbodInstance := some "db1",
    pods := some [{ name := "p", releaseIDAnnot := "v9-r1", phase := .running, creationTimestamp := 0 }] }

/-- A baseline benign environment: every external call succeeds. -/
def baseEnv : Env :=
  { getSite := .found, now := 1000,
    defaultDomain := "webtest.cern.ch", siteBuilderImage := "sb", genPassword := "gen",
    specValid := true, productionSites := some [],
    deployGetErr := false, deployWriteErr := false, rollbackWriteErr := false,
    deleteErr := false, scheduleDeleteErr := false,
    resourceErr := fun _ => false,
    execCheckInstalled := some "", execCondCheckUpdb := some "", execCheckUpdb := some "",
    execTakeBackup := some "", execRunUpdb := some "", execRestoreBackup := some "",
    execCacheReload1 := some "", execCacheReload2 := some "",
    statusWrite := .ok, crWrite := .ok, backupList := some [] }

/-- Environment of the C6 counterexample: a transient resource-convergence
error makes the pass go through the transient-error handler, whose status
persist hits a write conflict. -/
def c6Env : Env :=
  { baseEnv with resourceErr := fun k => k == "pvc_drupal", statusWrite := .conflict }


/-- Site of several witnesses: like the baseline but with an older failsafe,
so a settled pass commits the failsafe. -/
def c1Site : DrupalSite :=
  { baseSite with status :=
      { baseSite.status with releaseID := { current := "v9-r1", failsafe := "v8-r0" } } }

/-- A pod of the desired release that ended in Failed phase. -/
def c2Pod : Pod :=
  { name := "p", releaseIDAnnot := "v9-r1", phase := .failed, creationTimestamp := 0 }

/-- Cluster whose only pod of the desired release failed. -/
def c2Cluster : Cluster := { baseCluster with pods := some [c2Pod] }

/-- A pod of the desired release still in Pending phase, created at time 0. -/
def c3Pod : Pod :=
  { name := "p", releaseIDAnnot := "v9-r1", phase := .pending, creationTimestamp := 0 }

/-- Cluster whose only pod of the desired release is pending. -/
def c3Cluster : Cluster := { baseCluster with pods := some [c3Pod] }

/-- Site of the C4 counterexample: publishing disabled. -/
def c4Site : DrupalSite :=
  { baseSite with spec := { baseSpec with publish := false } }

/-- Cluster of the C4 counterexample: the WebDAV route (webdav-mysite), the
main route (mysite) and the OIDC return URI (mysite) all exist. -/
def c4Cluster : Cluster :=
  { baseCluster with routes := ["webdav-mysite", "mysite"], oidcReturnURIs := ["mysite"] }

/-- Cluster of the C7 counterexample: the install job succeeded but the
deployment does not exist yet, so the live install probe reports false. -/
def c7Cluster : Cluster :=
  { baseCluster with
    deployment := none
    deploymentReadyReplicas := 0
    installJobSucceeded := some 1
    cloneJobSucceeded := none }

/-- Site of the C7 counterexample: no conditions set yet. -/
def c7Site : DrupalSite :=
  { baseSite with status := { baseSite.status with conditions := [] } }

/-- Environment of the C8 counterexample: both cache-reload exec calls report
stderr output. -/
def c8Env : Env :=
  { baseEnv with execCacheReload1 := none, execCacheReload2 := none }

/-- Site of the C8 counterexample: a code update is flagged in progress. -/
def c8Site : DrupalSite :=
  { baseSite with annotations := [("updateInProgress", "true")] }

/-- The conclusion of the failsafe-advance analysis for one pass: the failsafe
was assigned exactly the current release identifier (the one derived from the
spec), which differed from the previous failsafe, while neither failure
condition is true on the resulting site. -/
def C1Concl (r : PassResult) (d : DrupalSite) : Prop :=
  r.site.status.releaseID.failsafe = r.site.status.releaseID.current
  ∧ r.site.status.releaseID.current = releaseID d
  ∧ r.site.status.releaseID.current ≠ d.status.releaseID.failsafe
  ∧ conditionTrue r.site.status.conditions "CodeUpdateFailed" = false
  ∧ conditionTrue r.site.status.conditions "DBUpdatesFailed" = false


/-! ## Helper lemmas -/

theorem lookup_mapSet_self (m : SMap) (k v : String) : (mapSet m k v).lookup k = some v := by
  induction m with
  | nil => simp [mapSet]
  | cons p t ih =>
    by_cases h : p.1 = k
    · simp [mapSet, h]
    · have hk : (k == p.1) = false := by simp [Ne.symm h]
      simp [mapSet, h, List.lookup, hk, ih]

theorem mapGet_mapSet_self (m : SMap) (k v : String) : mapGet (mapSet m k v) k = v := by
  simp [mapGet, lookup_mapSet_self]

theorem lookup_mapDel_self (m : SMap) (k : String) : (mapDel m k).lookup k = none := by
  induction m with
  | nil => simp [mapDel]
  | cons p t ih =>
    by_cases h : p.1 = k
    · simpa [mapDel, h] using ih
    · have hk : (k == p.1) = false := by simp [Ne.symm h]
      simpa [mapDel, h, List.lookup, hk] using ih

theorem mapHas_mapDel_self (m : SMap) (k : String) : mapHas (mapDel m k) k = false := by
  simp [mapHas, lookup_mapDel_self]

theorem getCondition_setCond_self (cs : Conditions) (t : String) (c : Cond) :
    getCondition (setCond cs t c).1 t = some c := by
  induction cs with
  | nil => simp [setCond, getCondition]
  | cons p rest ih =>
    by_cases h : p.1 = t
    · simp [setCond, getCondition, h]
    · have hk : (t == p.1) = false := by simp [Ne.symm h]
      simp [setCond, getCondition, h, List.lookup, hk] at ih ⊢
      exact ih

theorem conditionTrue_setCond_self (cs : Conditions) (t : String) (c : Cond) :
    conditionTrue (setCond cs t c).1 t = (c.status == CondStatus.ctrue) := by
  simp [conditionTrue, getCondition_setCond_self]

/-- Claim C10: setUpdateInProgress leaves the updateInProgress annotation equal
to the string true and returns true exactly when the annotation was not
already that string (a second consecutive call returns false and changes
nothing); unsetUpdateInProgress removes the annotation key and returns true
exactly when the key was present (a second consecutive call returns false and
changes nothing). -/
theorem c10_updateInProgress_markers :
    (∀ d : DrupalSite,
      mapGet (setUpdateInProgress d).1.annotations "updateInProgress" = "true"
      ∧ ((setUpdateInProgress d).2 = true ↔ mapGet d.annotations "updateInProgress" ≠ "true")
      ∧ setUpdateInProgress (setUpdateInProgress d).1 = ((setUpdateInProgress d).1, false))
    ∧ (∀ d : DrupalSite,
      mapHas (unsetUpdateInProgress d).1.annotations "updateInProgress" = false
      ∧ ((unsetUpdateInProgress d).2 = true ↔ mapHas d.annotations "updateInProgress" = true)
      ∧ unsetUpdateInProgress (unsetUpdateInProgress d).1 = ((unsetUpdateInProgress d).1, false)) := by
  constructor
  · intro d
    by_cases h : mapGet d.annotations "updateInProgress" = "true"
    · refine ⟨by simp [setUpdateInProgress, h], by simp [setUpdateInProgress, h], ?_⟩
      simp [setUpdateInProgress, h]
    · refine ⟨by simp [setUpdateInProgress, h, mapGet_mapSet_self], by simp [setUpdateInProgress, h], ?_⟩
      have h2 : mapGet (setUpdateInProgress d).1.annotations "updateInProgress" = "true" := by
        simp [setUpdateInProgress, h, mapGet_mapSet_self]
      simp only [setUpdateInProgress] at h2 ⊢
      simp [h] at h2 ⊢
      simp [h2]
  · intro d
    by_cases hlen : d.annotations.length = 0
    · have hnil : d.annotations = [] := List.length_eq_zero.mp hlen
      refine ⟨by simp [unsetUpdateInProgress, hnil, mapHas], by simp [unsetUpdateInProgress, hnil, mapHas], ?_⟩
      simp [unsetUpdateInProgress, hnil, mapHas]
    · by_cases hk : mapHas d.annotations "updateInProgress" = true
      · have hres : (unsetUpdateInProgress d).1
            = { d with annotations := mapDel d.annotations "updateInProgress" } := by
          simp [unsetUpdateInProgress, hlen, hk]
        have hdel : mapHas (mapDel d.annotations "updateInProgress") "updateInProgress" = false :=
          mapHas_mapDel_self _ _
        refine ⟨by rw [hres]; exact hdel, by simp [unsetUpdateInProgress, hlen, hk], ?_⟩
        rw [hres]
        by_cases h2 : (mapDel d.annotations "updateInProgress").length = 0
        · simp [unsetUpdateInProgress, h2]
        · simp [unsetUpdateInProgress, h2, hdel]
      · refine ⟨?_, by simp [unsetUpdateInProgress, hlen, hk], ?_⟩
        · have hres : (unsetUpdateInProgress d).1 = d := by
            simp [unsetUpdateInProgress, hlen, hk]
          rw [hres]
          simpa using hk
        · have hres : (unsetUpdateInProgress d).1 = d := by
            simp [unsetUpdateInProgress, hlen, hk]
          rw [hres]
          simp [unsetUpdateInProgress, hlen, hk]

theorem backupNamesDiffer_self (v : List VeleroBackup) :
    backupNamesDiffer v (updateBackupListStatus v) = false := by
  induction v with
  | nil => simp [backupNamesDiffer, updateBackupListStatus]
  | cons a t ih => simp [backupNamesDiffer, updateBackupListStatus] at ih ⊢; exact ih

theorem backupNamesDiffer_iff (v : List VeleroBackup) :
    ∀ s : List Backup, v.length = s.length →
      (backupNamesDiffer v s = false ↔ List.Forall₂ (fun a b => a.name = b.name) v s) := by
  induction v with
  | nil =>
    intro s hlen
    have hs : s = [] := List.length_eq_zero.mp hlen.symm
    simp [hs, backupNamesDiffer]
  | cons a t ih =>
    intro s hlen
    cases s with
    | nil => simp at hlen
    | cons b u =>
      have hlen2 : t.length = u.length := by simpa using hlen
      simp only [backupNamesDiffer, Bool.or_eq_false_iff, bne_eq_false_iff_eq,
        List.forall₂_cons]
      constructor
      · rintro ⟨h1, h2⟩
        exact ⟨h1, (ih u hlen2).mp h2⟩
      · rintro ⟨h1, h2⟩
        exact ⟨h1, (ih u hlen2).mpr h2⟩

/-- Claim C9: converting a list of completed velero backups to its status form
and comparing it against the same list reports no update needed; in general
backupListUpdateNeeded reports no update exactly when the two lists have equal
length and pairwise equal names in order. -/
theorem c9_backup_list_comparison :
    (∀ v : List VeleroBackup, backupListUpdateNeeded v (updateBackupListStatus v) = false)
    ∧ (∀ (v : List VeleroBackup) (s : List Backup),
        backupListUpdateNeeded v s = false
          ↔ List.Forall₂ (fun (a : VeleroBackup) (b : Backup) => a.name = b.name) v s) := by
  constructor
  · intro v
    have hlen : (updateBackupListStatus v).length = v.length := by
      simp [updateBackupListStatus]
    simp [backupListUpdateNeeded, hlen, backupNamesDiffer_self]
  · intro v s
    by_cases hlen : v.length = s.length
    · simp only [backupListUpdateNeeded, hlen, bne_self_eq_false, Bool.false_eq_true, if_false]
      exact backupNamesDiffer_iff v s hlen
    · have hne : (v.length != s.length) = true := by simpa using hlen
      simp only [backupListUpdateNeeded, hne, if_true]
      constructor
      · intro h; cases h
      · intro h; exact absurd h.length_eq hlen

/-- Claim C6 counterexample: a pass whose status persist fails with a write
conflict but which does not return Requeue=true.  The transient-error handler
of Reconcile discards the persist helper result, so the pass that hits a
transient resource-convergence error persists the status (conflicting) and
returns no requeue and no error. -/
theorem c6_counterexample :
    c6Env.statusWrite = WriteResult.conflict
    ∧ (reconcile c6Env baseCluster baseSite).persists = [Persist.statusSub]
    ∧ (reconcile c6Env baseCluster baseSite).res = { requeue := false, err := none } := by
  exact ⟨rfl, rfl, rfl⟩

/-- Claim C6 (amended): the persist helpers updateCRorFailReconcile and
updateCRStatusOrFailReconcile turn an optimistic-concurrency conflict into an
immediate requeue with nil error, leaving the site unchanged (no failure
condition is set); every Reconcile return path that forwards their result
therefore requeues on conflict, but the transient-error handler and the
DBOD-not-ready path discard the helper result. -/
theorem c6_conflict_requeue_helpers (d : DrupalSite) (w : WriteResult)
    (h : w = WriteResult.conflict) :
    updateCRorFailReconcile w d = (d, { requeue := true, err := none })
    ∧ updateCRStatusOrFailReconcile w d = (d, { requeue := true, err := none }) := by
  subst h
  exact ⟨rfl, rfl⟩

/-- Witness for the C6 amended theorem at a concrete site and write result. -/
theorem c6_conflict_requeue_helpers_witness :
    updateCRorFailReconcile WriteResult.conflict baseSite
        = (baseSite, { requeue := true, err := none })
    ∧ updateCRStatusOrFailReconcile WriteResult.conflict baseSite
        = (baseSite, { requeue := true, err := none }) :=
  c6_conflict_requeue_helpers baseSite WriteResult.conflict rfl

theorem releaseID_congr (d₁ d : DrupalSite) (h : d₁.spec.version = d.spec.version) :
    releaseID d₁ = releaseID d := by
  simp [releaseID, h]

theorem afterCacheReload_releaseID (env : Env) (c : Cluster) (d : DrupalSite)
    (sout : String) (tr : List ExecCmd) :
    (afterCacheReload env c d sout tr).site.status.releaseID = d.status.releaseID := by
  unfold afterCacheReload
  dsimp only
  repeat' split
  all_goals simp [setConditionStatus, removeSiteCondition, withConditions]

theorem afterCacheReload_spec (env : Env) (c : Cluster) (d : DrupalSite)
    (sout : String) (tr : List ExecCmd) :
    (afterCacheReload env c d sout tr).site.spec = d.spec := by
  unfold afterCacheReload
  dsimp only
  repeat' split
  all_goals simp [setConditionStatus, removeSiteCondition, withConditions]

theorem updateDrupalVersion_releaseID (env : Env) (c : Cluster) (d : DrupalSite) :
    (updateDrupalVersion env c d).site.status.releaseID = d.status.releaseID := by
  unfold updateDrupalVersion
  dsimp only
  repeat' split
  all_goals simp [afterCacheReload_releaseID, setConditionStatus, withConditions]

theorem updateDrupalVersion_spec (env : Env) (c : Cluster) (d : DrupalSite) :
    (updateDrupalVersion env c d).site.spec = d.spec := by
  unfold updateDrupalVersion
  dsimp only
  repeat' split
  all_goals simp [afterCacheReload_spec, setConditionStatus, withConditions]

theorem schemaClearConditions_releaseID (d : DrupalSite) (tr : List ExecCmd) :
    (schemaClearConditions d tr).site.status.releaseID = d.status.releaseID := by
  unfold schemaClearConditions
  dsimp only
  repeat' split
  all_goals simp [removeSiteCondition, withConditions]

theorem schemaClearConditions_spec (d : DrupalSite) (tr : List ExecCmd) :
    (schemaClearConditions d tr).site.spec = d.spec := by
  unfold schemaClearConditions
  dsimp only
  repeat' split
  all_goals simp [removeSiteCondition, withConditions]

theorem updateDBSchema_releaseID (env : Env) (d : DrupalSite) :
    (updateDBSchema env d).site.status.releaseID = d.status.releaseID := by
  unfold updateDBSchema
  dsimp only
  repeat' split
  all_goals simp [schemaClearConditions_releaseID, setConditionStatus, setDBUpdatesPending,
    withConditions]

theorem updateDBSchema_spec (env : Env) (d : DrupalSite) :
    (updateDBSchema env d).site.spec = d.spec := by
  unfold updateDBSchema
  dsimp only
  repeat' split
  all_goals simp [schemaClearConditions_spec, setConditionStatus, setDBUpdatesPending,
    withConditions]

theorem addSpecFinalizer_status (d : DrupalSite) : (addSpecFinalizer d).1.status = d.status := by
  unfold addSpecFinalizer; split <;> simp

theorem addSpecFinalizer_version (d : DrupalSite) :
    (addSpecFinalizer d).1.spec.version = d.spec.version := by
  unfold addSpecFinalizer; split <;> simp

theorem defaultSiteURL_status (env : Env) (d : DrupalSite) :
    (defaultSiteURL env d).status = d.status := by
  unfold defaultSiteURL; repeat' split
  all_goals simp

theorem defaultSiteURL_version (env : Env) (d : DrupalSite) :
    (defaultSiteURL env d).spec.version = d.spec.version := by
  unfold defaultSiteURL; repeat' split
  all_goals simp

theorem defaultWebDAVPassword_status (env : Env) (d : DrupalSite) :
    (defaultWebDAVPassword env d).status = d.status := by
  unfold defaultWebDAVPassword; split <;> simp

theorem defaultWebDAVPassword_version (env : Env) (d : DrupalSite) :
    (defaultWebDAVPassword env d).spec.version = d.spec.version := by
  unfold defaultWebDAVPassword; split <;> simp

theorem fixProductionLabel_status (d : DrupalSite) :
    (fixProductionLabel d).status = d.status := by
  unfold fixProductionLabel; dsimp only; repeat' split
  all_goals simp

theorem fixProductionLabel_version (d : DrupalSite) :
    (fixProductionLabel d).spec.version = d.spec.version := by
  unfold fixProductionLabel; dsimp only; repeat' split
  all_goals simp

theorem selectCloneFrom_status (env : Env) (d : DrupalSite) (u : Bool) :
    (selectCloneFrom env d u).site.status = d.status := by
  unfold selectCloneFrom; repeat' split
  all_goals simp [setCloneFrom]

theorem selectCloneFrom_version (env : Env) (d : DrupalSite) (u : Bool) :
    (selectCloneFrom env d u).site.spec.version = d.spec.version := by
  unfold selectCloneFrom; repeat' split
  all_goals simp [setCloneFrom]

theorem ensureSpecFinalizer_status (env : Env) (d : DrupalSite) :
    (ensureSpecFinalizer env d).site.status = d.status := by
  unfold ensureSpecFinalizer
  rw [selectCloneFrom_status, fixProductionLabel_status, defaultWebDAVPassword_status,
    defaultSiteURL_status, addSpecFinalizer_status]

theorem ensureSpecFinalizer_version (env : Env) (d : DrupalSite) :
    (ensureSpecFinalizer env d).site.spec.version = d.spec.version := by
  unfold ensureSpecFinalizer
  rw [selectCloneFrom_version, fixProductionLabel_version, defaultWebDAVPassword_version,
    defaultSiteURL_version, addSpecFinalizer_version]

theorem unsetUpdateInProgress_status (d : DrupalSite) :
    (unsetUpdateInProgress d).1.status = d.status := by
  unfold unsetUpdateInProgress
  repeat' split
  all_goals simp

theorem unsetUpdateInProgress_spec (d : DrupalSite) :
    (unsetUpdateInProgress d).1.spec = d.spec := by
  unfold unsetUpdateInProgress
  repeat' split
  all_goals simp

theorem setUpdateInProgress_status (d : DrupalSite) :
    (setUpdateInProgress d).1.status = d.status := by
  unfold setUpdateInProgress
  repeat' split
  all_goals simp

theorem setUpdateInProgress_spec (d : DrupalSite) :
    (setUpdateInProgress d).1.spec = d.spec := by
  unfold setUpdateInProgress
  repeat' split
  all_goals simp

theorem evalInitializedCond_releaseID (env : Env) (c : Cluster) (d : DrupalSite) :
    (evalInitializedCond env c d).1.status.releaseID = d.status.releaseID := by
  unfold evalInitializedCond
  repeat' split
  all_goals simp [setInitialized, setNotInitialized, withConditions]

theorem evalInitializedCond_spec (env : Env) (c : Cluster) (d : DrupalSite) :
    (evalInitializedCond env c d).1.spec = d.spec := by
  unfold evalInitializedCond
  repeat' split
  all_goals simp [setInitialized, setNotInitialized, withConditions]

theorem clearFailsafeCaughtUp_releaseID (d : DrupalSite) :
    (clearFailsafeCaughtUp d).1.status.releaseID = d.status.releaseID := by
  unfold clearFailsafeCaughtUp
  dsimp only
  repeat' split
  all_goals simp [removeSiteCondition, withConditions]

theorem clearFailsafeCaughtUp_spec (d : DrupalSite) :
    (clearFailsafeCaughtUp d).1.spec = d.spec := by
  unfold clearFailsafeCaughtUp
  dsimp only
  repeat' split
  all_goals simp [removeSiteCondition, withConditions]

theorem setCurrentReleaseID_current (s : DrupalSite) :
    (setCurrentReleaseID s).1.status.releaseID.current = releaseID s := by
  unfold setCurrentReleaseID
  split
  · simp
  · rename_i h
    simpa using h

theorem setCurrentReleaseID_failsafe (s : DrupalSite) :
    (setCurrentReleaseID s).1.status.releaseID.failsafe = s.status.releaseID.failsafe := by
  unfold setCurrentReleaseID
  split <;> simp

theorem setCurrentReleaseID_spec (s : DrupalSite) :
    (setCurrentReleaseID s).1.spec = s.spec := by
  unfold setCurrentReleaseID
  split <;> simp

theorem stageBackups_releaseID (env : Env) (c : Cluster) (d : DrupalSite)
    (nf : Option AppError) (ex : List ExecCmd) :
    (stageBackups env c d nf ex).site.status.releaseID = d.status.releaseID := by
  unfold stageBackups persistStatusExit
  dsimp only
  repeat' split
  all_goals simp

theorem C1Concl_transfer (r : PassResult) (d₁ d : DrupalSite)
    (h1 : releaseID d₁ = releaseID d)
    (h2 : d₁.status.releaseID.failsafe = d.status.releaseID.failsafe) :
    C1Concl r d₁ → C1Concl r d := by
  rintro ⟨a, b, c2, e, f⟩
  exact ⟨a, by rw [b, h1], by rw [← h2]; exact c2, e, f⟩

theorem stageFailsafe_c1 (env : Env) (c : Cluster) (d : DrupalSite)
    (nf : Option AppError) (ex : List ExecCmd)
    (hcur : d.status.releaseID.current = releaseID d) :
    (stageFailsafe env c d nf ex).site.status.releaseID.failsafe = d.status.releaseID.failsafe
    ∨ C1Concl (stageFailsafe env c d nf ex) d := by
  unfold stageFailsafe
  split
  · right
    rename_i hg
    simp only [Bool.and_eq_true, bne_iff_ne, Bool.not_eq_true'] at hg
    obtain ⟨⟨hne, hdbf⟩, hcuf⟩ := hg
    refine ⟨?_, ?_, ?_, ?_, ?_⟩
    · simp [persistStatusExit, hcur]
    · simp [persistStatusExit]; exact hcur
    · simpa [persistStatusExit] using hne
    · simpa [persistStatusExit] using hcuf
    · simpa [persistStatusExit] using hdbf
  · left
    exact congrArg ReleaseIDStatus.failsafe (stageBackups_releaseID env c d nf ex)

theorem stageDBOD_c1 (env : Env) (c : Cluster) (d : DrupalSite)
    (nf : Option AppError) (ex : List ExecCmd)
    (hcur : d.status.releaseID.current = releaseID d) :
    (stageDBOD env c d nf ex).site.status.releaseID.failsafe = d.status.releaseID.failsafe
    ∨ C1Concl (stageDBOD env c d nf ex) d := by
  unfold stageDBOD
  split
  · left
    simp [setNotReady, setConditionStatus, withConditions]
  · exact stageFailsafe_c1 env c d nf ex hcur

theorem stageUnset_c1 (env : Env) (c : Cluster) (d : DrupalSite)
    (nf : Option AppError) (ex : List ExecCmd)
    (hcur : d.status.releaseID.current = releaseID d) :
    (stageUnset env c d nf ex).site.status.releaseID.failsafe = d.status.releaseID.failsafe
    ∨ C1Concl (stageUnset env c d nf ex) d := by
  unfold stageUnset
  dsimp only
  split
  · left
    rw [unsetUpdateInProgress_status]
  · have hst := unsetUpdateInProgress_status d
    have hsp := unsetUpdateInProgress_spec d
    have hcur2 : (unsetUpdateInProgress d).1.status.releaseID.current
        = releaseID (unsetUpdateInProgress d).1 := by
      rw [hst, releaseID_congr _ _ (congrArg DrupalSiteSpec.version hsp)]
      exact hcur
    rcases stageDBOD_c1 env c (unsetUpdateInProgress d).1 nf ex hcur2 with hl | hr
    · left
      rw [hl, hst]
    · right
      exact C1Concl_transfer _ _ _ (releaseID_congr _ _ (congrArg DrupalSiteSpec.version hsp))
        (congrArg ReleaseIDStatus.failsafe (congrArg DrupalSiteStatus.releaseID hst)) hr

theorem stageDBUpdate_c1 (env : Env) (c : Cluster) (d : DrupalSite) (isUpd : Bool)
    (nf : Option AppError) (ex : List ExecCmd)
    (hcur : d.status.releaseID.current = releaseID d) :
    (stageDBUpdate env c d isUpd nf ex).site.status.releaseID.failsafe = d.status.releaseID.failsafe
    ∨ C1Concl (stageDBUpdate env c d isUpd nf ex) d := by
  unfold stageDBUpdate
  dsimp only
  split
  · split
    · left
      simp only [persistStatusExit]
      rw [congrArg ReleaseIDStatus.failsafe (updateDBSchema_releaseID env d)]
    · have hrel := updateDBSchema_releaseID env d
      have hsp := updateDBSchema_spec env d
      have hcur2 : (updateDBSchema env d).site.status.releaseID.current
          = releaseID (updateDBSchema env d).site := by
        rw [congrArg ReleaseIDStatus.current hrel,
          releaseID_congr _ _ (congrArg DrupalSiteSpec.version hsp)]
        exact hcur
      rcases stageUnset_c1 env c (updateDBSchema env d).site nf
          (ex ++ (updateDBSchema env d).execs) hcur2 with hl | hr
      · left
        rw [hl, congrArg ReleaseIDStatus.failsafe hrel]
      · right
        exact C1Concl_transfer _ _ _ (releaseID_congr _ _ (congrArg DrupalSiteSpec.version hsp))
          (congrArg ReleaseIDStatus.failsafe hrel) hr
  · exact stageUnset_c1 env c d nf ex hcur

theorem stageCodeUpdate_c1 (env : Env) (c : Cluster) (d : DrupalSite) (isUpd : Bool)
    (nf : Option AppError) (ex : List ExecCmd)
    (hcur : d.status.releaseID.current = releaseID d) :
    (stageCodeUpdate env c d isUpd nf ex).site.status.releaseID.failsafe = d.status.releaseID.failsafe
    ∨ C1Concl (stageCodeUpdate env c d isUpd nf ex) d := by
  unfold stageCodeUpdate
  dsimp only
  split
  · have hrel := updateDrupalVersion_releaseID env c d
    have hsp := updateDrupalVersion_spec env c d
    split
    · split
      · left
        rw [congrArg ReleaseIDStatus.failsafe hrel]
      · left
        have hb : (("CodeUpdateFailed" : String) == "Ready") = false := by decide
        simp only [handleTransientErrResult, hb, Bool.false_eq_true, if_false]
        rw [congrArg ReleaseIDStatus.failsafe hrel]
    · split
      · left
        simp only [persistStatusExit]
        rw [congrArg ReleaseIDStatus.failsafe hrel]
      · split
        · left
          rw [congrArg ReleaseIDStatus.failsafe hrel]
        · have hcur2 : (updateDrupalVersion env c d).site.status.releaseID.current
              = releaseID (updateDrupalVersion env c d).site := by
            rw [congrArg ReleaseIDStatus.current hrel,
              releaseID_congr _ _ (congrArg DrupalSiteSpec.version hsp)]
            exact hcur
          rcases stageDBUpdate_c1 env (updateDrupalVersion env c d).cluster
              (updateDrupalVersion env c d).site isUpd nf
              (ex ++ (updateDrupalVersion env c d).execs) hcur2 with hl | hr
          · left
            rw [hl, congrArg ReleaseIDStatus.failsafe hrel]
          · right
            exact C1Concl_transfer _ _ _
              (releaseID_congr _ _ (congrArg DrupalSiteSpec.version hsp))
              (congrArg ReleaseIDStatus.failsafe hrel) hr
  · exact stageDBUpdate_c1 env c d isUpd nf ex hcur

theorem stageEnsure_c1 (env : Env) (c : Cluster) (d : DrupalSite) (isUpd : Bool)
    (nf : Option AppError) (ex : List ExecCmd)
    (hcur : d.status.releaseID.current = releaseID d) :
    (stageEnsure env c d isUpd nf ex).site.status.releaseID.failsafe = d.status.releaseID.failsafe
    ∨ C1Concl (stageEnsure env c d isUpd nf ex) d := by
  unfold stageEnsure
  dsimp only
  split
  · left
    simp [handleTransientErrResult, setNotReady, setConditionStatus, withConditions]
  · exact stageCodeUpdate_c1 env _ d isUpd nf ex hcur

theorem setReady_releaseID (d : DrupalSite) :
    (setReady d).1.status.releaseID = d.status.releaseID := rfl

theorem setReady_spec (d : DrupalSite) : (setReady d).1.spec = d.spec := rfl

theorem setNotReady_releaseID (d : DrupalSite) (e : Option AppError) :
    (setNotReady d e).1.status.releaseID = d.status.releaseID := rfl

theorem setNotReady_spec (d : DrupalSite) (e : Option AppError) :
    (setNotReady d e).1.spec = d.spec := rfl

theorem removeSiteCondition_releaseID (d : DrupalSite) (t : String) :
    (removeSiteCondition d t).1.status.releaseID = d.status.releaseID := rfl

theorem removeSiteCondition_spec (d : DrupalSite) (t : String) :
    (removeSiteCondition d t).1.spec = d.spec := rfl

theorem setErrorCondition_releaseID (d : DrupalSite) (e : Option AppError) :
    (setErrorCondition d e).1.status.releaseID = d.status.releaseID := rfl

theorem reconcileMain_c1 (env : Env) (c : Cluster) (d : DrupalSite) (u : Bool)
    (ex : List ExecCmd)
    (hcur : d.status.releaseID.current = releaseID d) :
    (reconcileMain env c d u ex).site.status.releaseID.failsafe = d.status.releaseID.failsafe
    ∨ C1Concl (reconcileMain env c d u ex) d := by
  have hArel := clearFailsafeCaughtUp_releaseID d
  have hAsp := clearFailsafeCaughtUp_spec d
  have hcur1 : (clearFailsafeCaughtUp d).1.status.releaseID.current
      = releaseID (clearFailsafeCaughtUp d).1 := by
    rw [congrArg ReleaseIDStatus.current hArel,
      releaseID_congr _ _ (congrArg DrupalSiteSpec.version hAsp)]
    exact hcur
  unfold reconcileMain
  dsimp only
  split
  · left
    simp only [persistStatusExit]
    rw [congrArg ReleaseIDStatus.failsafe hArel]
  · split
    · split
      · left
        rw [setUpdateInProgress_status, congrArg ReleaseIDStatus.failsafe hArel]
      · have hd₂ := setUpdateInProgress_status (clearFailsafeCaughtUp d).1
        have hd₂s := setUpdateInProgress_spec (clearFailsafeCaughtUp d).1
        have hcur2 : (setUpdateInProgress (clearFailsafeCaughtUp d).1).1.status.releaseID.current
            = releaseID (setUpdateInProgress (clearFailsafeCaughtUp d).1).1 := by
          rw [hd₂, releaseID_congr _ _ (congrArg DrupalSiteSpec.version hd₂s)]
          exact hcur1
        rcases stageEnsure_c1 env c (setUpdateInProgress (clearFailsafeCaughtUp d).1).1 _ _ ex hcur2
          with hl | hr
        · left
          rw [hl, hd₂, congrArg ReleaseIDStatus.failsafe hArel]
        · right
          refine C1Concl_transfer _ _ _ ?_ ?_ hr
          · rw [releaseID_congr _ _ (congrArg DrupalSiteSpec.version hd₂s),
              releaseID_congr _ _ (congrArg DrupalSiteSpec.version hAsp)]
          · rw [congrArg ReleaseIDStatus.failsafe (congrArg DrupalSiteStatus.releaseID hd₂),
              congrArg ReleaseIDStatus.failsafe hArel]
    · rcases stageEnsure_c1 env c (clearFailsafeCaughtUp d).1 _ _ ex hcur1 with hl | hr
      · left
        rw [hl, congrArg ReleaseIDStatus.failsafe hArel]
      · right
        exact C1Concl_transfer _ _ _ (releaseID_congr _ _ (congrArg DrupalSiteSpec.version hAsp))
          (congrArg ReleaseIDStatus.failsafe hArel) hr

theorem conditionsTail_c1 (env : Env) (c : Cluster) (d : DrupalSite) (u : Bool)
    (hcur : d.status.releaseID.current = releaseID d) :
    (conditionsTail env c d u).site.status.releaseID.failsafe = d.status.releaseID.failsafe
    ∨ C1Concl (conditionsTail env c d u) d := by
  unfold conditionsTail
  dsimp only
  split
  · split
    · left
      simp [persistStatusExit]
    · split
      · have hcur2 : (removeSiteCondition d "DBUpdatesPending").1.status.releaseID.current
            = releaseID (removeSiteCondition d "DBUpdatesPending").1 := by
          rw [removeSiteCondition_releaseID,
            releaseID_congr _ _ (congrArg DrupalSiteSpec.version (removeSiteCondition_spec d _))]
          exact hcur
        rcases reconcileMain_c1 env c (removeSiteCondition d "DBUpdatesPending").1 _ _ hcur2
          with hl | hr
        · left
          rw [hl, removeSiteCondition_releaseID]
        · right
          exact C1Concl_transfer _ _ _
            (releaseID_congr _ _ (congrArg DrupalSiteSpec.version (removeSiteCondition_spec d _)))
            (congrArg ReleaseIDStatus.failsafe (removeSiteCondition_releaseID d _)) hr
      · exact reconcileMain_c1 env c d _ _ hcur
  · exact reconcileMain_c1 env c d _ _ hcur

theorem conditionsStage_c1 (env : Env) (c : Cluster) (s : DrupalSite) :
    (conditionsStage env c s).site.status.releaseID.failsafe = s.status.releaseID.failsafe
    ∨ C1Concl (conditionsStage env c s) s := by
  have hp₂rel : ∀ (b : Bool) (x : DrupalSite),
      ((if b then setReady x else setNotReady x none).1).status.releaseID = x.status.releaseID := by
    intro b x; cases b <;> rfl
  have hp₂sp : ∀ (b : Bool) (x : DrupalSite),
      ((if b then setReady x else setNotReady x none).1).spec = x.spec := by
    intro b x; cases b <;> rfl
  unfold conditionsStage
  dsimp only
  -- the site entering conditionsTail
  have hrel : (evalInitializedCond env c
        ((if isDrupalSiteReady env c then setReady (setCurrentReleaseID s).1
          else setNotReady (setCurrentReleaseID s).1 none).1)).1.status.releaseID
      = ((setCurrentReleaseID s).1).status.releaseID := by
    rw [evalInitializedCond_releaseID, hp₂rel]
  have hsp : (evalInitializedCond env c
        ((if isDrupalSiteReady env c then setReady (setCurrentReleaseID s).1
          else setNotReady (setCurrentReleaseID s).1 none).1)).1.spec
      = ((setCurrentReleaseID s).1).spec := by
    rw [evalInitializedCond_spec, hp₂sp]
  have hcur3 : (evalInitializedCond env c
        ((if isDrupalSiteReady env c then setReady (setCurrentReleaseID s).1
          else setNotReady (setCurrentReleaseID s).1 none).1)).1.status.releaseID.current
      = releaseID (evalInitializedCond env c
        ((if isDrupalSiteReady env c then setReady (setCurrentReleaseID s).1
          else setNotReady (setCurrentReleaseID s).1 none).1)).1 := by
    rw [congrArg ReleaseIDStatus.current hrel, setCurrentReleaseID_current,
      releaseID_congr _ _ (congrArg DrupalSiteSpec.version
        (hsp.trans (setCurrentReleaseID_spec s)))]
  rcases conditionsTail_c1 env c _ _ hcur3 with hl | hr
  · left
    rw [hl, congrArg ReleaseIDStatus.failsafe hrel, setCurrentReleaseID_failsafe]
  · right
    refine C1Concl_transfer _ _ _ ?_ ?_ hr
    · exact releaseID_congr _ _ (congrArg DrupalSiteSpec.version
        (hsp.trans (setCurrentReleaseID_spec s)))
    · rw [congrArg ReleaseIDStatus.failsafe hrel, setCurrentReleaseID_failsafe]

theorem reconcileBody_c1 (env : Env) (c : Cluster) (d : DrupalSite) :
    (reconcileBody env c d).site.status.releaseID.failsafe = d.status.releaseID.failsafe
    ∨ C1Concl (reconcileBody env c d) d := by
  have hst := ensureSpecFinalizer_status env d
  have hver := ensureSpecFinalizer_version env d
  unfold reconcileBody
  dsimp only
  split
  · left
    simp only [persistStatusExit, setErrorCondition_releaseID]
    rw [congrArg ReleaseIDStatus.failsafe (congrArg DrupalSiteStatus.releaseID hst)]
  · split
    · left
      rw [congrArg ReleaseIDStatus.failsafe (congrArg DrupalSiteStatus.releaseID hst)]
    · split
      · left
        simp only [persistStatusExit, setErrorCondition_releaseID]
        rw [congrArg ReleaseIDStatus.failsafe (congrArg DrupalSiteStatus.releaseID hst)]
      · rcases conditionsStage_c1 env c (ensureSpecFinalizer env d).site with hl | hr
        · left
          rw [hl, congrArg ReleaseIDStatus.failsafe (congrArg DrupalSiteStatus.releaseID hst)]
        · right
          exact C1Concl_transfer _ _ _ (releaseID_congr _ _ hver)
            (congrArg ReleaseIDStatus.failsafe (congrArg DrupalSiteStatus.releaseID hst)) hr

theorem reconcile_c1 (env : Env) (c : Cluster) (d : DrupalSite) :
    (reconcile env c d).site.status.releaseID.failsafe = d.status.releaseID.failsafe
    ∨ C1Concl (reconcile env c d) d := by
  unfold reconcile
  split
  · left; rfl
  · left; rfl
  · split
    · split
      · unfold cleanupDrupalSite
        dsimp only
        split <;> (left; rfl)
      · left; rfl
    · exact reconcileBody_c1 env c d

/-- Claim C1: in every reconcile pass, status.releaseID.failsafe is assigned
only when the current release differs from the failsafe and neither the
CodeUpdateFailed nor the DBUpdatesFailed condition is true, and the value
assigned is exactly status.releaseID.current, the release identifier derived
from the spec; under any other circumstances the pass leaves failsafe
unchanged. -/
theorem c1_failsafe_advance (env : Env) (c : Cluster) (d : DrupalSite)
    (h : (reconcile env c d).site.status.releaseID.failsafe ≠ d.status.releaseID.failsafe) :
    (reconcile env c d).site.status.releaseID.failsafe
        = (reconcile env c d).site.status.releaseID.current
    ∧ (reconcile env c d).site.status.releaseID.current = releaseID d
    ∧ (reconcile env c d).site.status.releaseID.current ≠ d.status.releaseID.failsafe
    ∧ conditionTrue (reconcile env c d).site.status.conditions "CodeUpdateFailed" = false
    ∧ conditionTrue (reconcile env c d).site.status.conditions "DBUpdatesFailed" = false := by
  rcases reconcile_c1 env c d with hl | hr
  · exact absurd hl h
  · exact hr

/-- Witness for C1 at a concrete pass that advances the failsafe. -/
theorem c1_failsafe_advance_witness :
    (reconcile baseEnv baseCluster c1Site).site.status.releaseID.failsafe
        = (reconcile baseEnv baseCluster c1Site).site.status.releaseID.current
    ∧ (reconcile baseEnv baseCluster c1Site).site.status.releaseID.current = releaseID c1Site
    ∧ (reconcile baseEnv baseCluster c1Site).site.status.releaseID.current
        ≠ c1Site.status.releaseID.failsafe
    ∧ conditionTrue (reconcile baseEnv baseCluster c1Site).site.status.conditions
        "CodeUpdateFailed" = false
    ∧ conditionTrue (reconcile baseEnv baseCluster c1Site).site.status.conditions
        "DBUpdatesFailed" = false :=
  c1_failsafe_advance baseEnv baseCluster c1Site (by decide)

theorem databaseSecretName_cond (d : DrupalSite) :
    ((databaseSecretName d).length != 0) = true := by
  have h : ("dbcredentials-" ++ d.name).length = "dbcredentials-".length + d.name.length :=
    String.length_append _ _
  simp [databaseSecretName, h]
  intro hh
  exact absurd hh (by decide)


/-- Claim C2: if the Code-Update Workflow (updateDrupalVersion) reaches a
permanent (non-temporary) rollout failure, then before the pass persists its
result (update = true) the serving deployment is converged back to the release
identifier stored in status.releaseID.failsafe and the condition
CodeUpdateFailed is set true with the failure reason (and its message). -/
theorem c2_rollback_safety (env : Env) (c c₁ : Cluster) (d : DrupalSite)
    (rq : Bool) (e : AppError)
    (h1 : ensureUpdatedDeployment env c d = Except.ok (c₁, OpResult.unchanged))
    (h2 : didVersionRollOutSucceed env.now c₁ d = (rq, some e))
    (h3 : e.temporary = false)
    (h4 : env.rollbackWriteErr = false) :
    (updateDrupalVersion env c d).cluster.deployment = some d.status.releaseID.failsafe
    ∧ (updateDrupalVersion env c d).update = true
    ∧ (updateDrupalVersion env c d).requeue = false
    ∧ (updateDrupalVersion env c d).err = none
    ∧ getCondition (updateDrupalVersion env c d).site.status.conditions "CodeUpdateFailed"
        = some { status := .ctrue, reason := errName e.errType,
                 message := "Failed to update version " ++ releaseID d ++ ": " ++ e.msg } := by
  unfold updateDrupalVersion rollBackCodeUpdate
  simp only [h1, h2, h3, h4, databaseSecretName_cond, Bool.false_eq_true, if_false, if_true,
    beq_self_eq_true]
  refine ⟨trivial, trivial, trivial, trivial, ?_⟩
  simp only [setConditionStatus, withConditions]
  rw [getCondition_setCond_self]
  simp


/-- Witness for C2 at a concrete permanent rollout failure (Failed pod). -/
theorem c2_rollback_safety_witness :
    (updateDrupalVersion baseEnv c2Cluster c1Site).cluster.deployment
        = some c1Site.status.releaseID.failsafe
    ∧ (updateDrupalVersion baseEnv c2Cluster c1Site).update = true
    ∧ (updateDrupalVersion baseEnv c2Cluster c1Site).requeue = false
    ∧ (updateDrupalVersion baseEnv c2Cluster c1Site).err = none
    ∧ getCondition (updateDrupalVersion baseEnv c2Cluster c1Site).site.status.conditions
          "CodeUpdateFailed"
        = some { status := .ctrue, reason := errName ErrType.errDeploymentUpdateFailed,
                 message := "Failed to update version " ++ releaseID c1Site ++ ": "
                   ++ "Pod did not roll out successfully" } :=
  c2_rollback_safety baseEnv c2Cluster c2Cluster c1Site false
    { errType := .errDeploymentUpdateFailed, msg := "Pod did not roll out successfully" }
    rfl rfl rfl rfl


/-- Claim C3: for every rollout-health check on a pod in Pending phase, an
elapsed time since the pod creation timestamp strictly below 3 minutes yields
a temporary outcome (requeue true, PodNotRunning, temporary) and 3 minutes or
more yields a permanent failure (DeploymentUpdateFailed, not temporary); for
any other phase the check result does not depend on the clock, so the
3-minute grace period is the only timeout the check enforces. -/
theorem c3_pending_grace_period (now : Int) (c : Cluster) (d : DrupalSite) (pod : Pod)
    (hpod : getPodForVersion c (releaseID d) = Except.ok pod) :
    (pod.phase = PodPhase.pending →
      (now - pod.creationTimestamp < 3 * 60 →
        didVersionRollOutSucceed now c d
            = (true, some { errType := .errPodNotRunning, msg := "Waiting for pod to start" })
        ∧ AppError.temporary { errType := .errPodNotRunning, msg := "Waiting for pod to start" }
            = true)
      ∧ (3 * 60 ≤ now - pod.creationTimestamp →
        didVersionRollOutSucceed now c d
            = (false, some { errType := .errDeploymentUpdateFailed,
                             msg := "Pod failed to start after grace period" })
        ∧ AppError.temporary { errType := .errDeploymentUpdateFailed,
                               msg := "Pod failed to start after grace period" } = false))
    ∧ (pod.phase ≠ PodPhase.pending →
        ∀ t₁ t₂ : Int, didVersionRollOutSucceed t₁ c d = didVersionRollOutSucceed t₂ c d) := by
  constructor
  · intro hp
    constructor
    · intro ht
      refine ⟨?_, rfl⟩
      unfold didVersionRollOutSucceed
      rw [hpod]
      unfold rolloutPodCheck
      simp [hp, ht]
      omega
    · intro ht
      refine ⟨?_, rfl⟩
      unfold didVersionRollOutSucceed
      rw [hpod]
      unfold rolloutPodCheck
      simp [hp, not_lt.mpr ht]
      omega
  · intro hnp t₁ t₂
    unfold didVersionRollOutSucceed
    rw [hpod]
    unfold rolloutPodCheck
    cases hph : pod.phase <;> simp_all


/-- Witness for C3 at a concrete pending pod, 60 seconds and 200 seconds
after its creation. -/
theorem c3_pending_grace_period_witness :
    (didVersionRollOutSucceed 60 c3Cluster baseSite
        = (true, some { errType := .errPodNotRunning, msg := "Waiting for pod to start" }))
    ∧ (didVersionRollOutSucceed 200 c3Cluster baseSite
        = (false, some { errType := .errDeploymentUpdateFailed,
                         msg := "Pod failed to start after grace period" })) :=
  ⟨(((c3_pending_grace_period 60 c3Cluster baseSite c3Pod rfl).1 rfl).1 (by decide)).1,
   (((c3_pending_grace_period 200 c3Cluster baseSite c3Pod rfl).1 rfl).2 (by decide)).1⟩

theorem mem_ensureStep_ensured (env : Env) (d : DrupalSite) (acc : EnsureAcc) (k x : String) :
    x ∈ (ensureStep env d acc k).ensured ↔ (x ∈ acc.ensured ∨ x = k) := by
  simp [ensureStep]

theorem deleteStep_ensured (acc : EnsureAcc) (f : Cluster → Cluster × Option AppError) :
    (deleteStep acc f).ensured = acc.ensured := rfl


/-- The creation half of claim C4, in general form: when Initialized is not
true or publish is false, ensureResources never ensures the route, the WebDAV
route or the OIDC return URI. -/
theorem c4_no_ingress_test (env : Env) (c : Cluster) (d : DrupalSite)
    (h : conditionTrue d.status.conditions "Initialized" = false ∨ d.spec.publish = false) :
    ("webdav_route" ∉ (ensureResources env c d).ensured
      ∧ "route" ∉ (ensureResources env c d).ensured
      ∧ "oidc_return_uri" ∉ (ensureResources env c d).ensured) := by
  have hing : (conditionTrue d.status.conditions "Initialized" && d.spec.publish) = false := by
    rcases h with h | h <;> simp [h]
  unfold ensureResources
  dsimp only
  simp only [hing, Bool.false_eq_true, if_false]
  refine ⟨?_, ?_, ?_⟩ <;>
    (repeat' split) <;>
    simp [mem_ensureStep_ensured, deleteStep_ensured]



/-- Claim C4 (code bug shown at the failing input): for a published=false
site the pass creates no ingress resource, but the deletion half fails: the
WebDAV route webdav-mysite and the OIDC return URI mysite survive the pass
because ensureNoWebDAVRoute looks up the route named after the site (not the
webdav- prefixed name) and ensureNoReturnURI looks up an empty object name. -/
theorem c4_counterexample :
    conditionTrue c4Site.status.conditions "Initialized" = true
    ∧ c4Site.spec.publish = false
    ∧ (ensureResources baseEnv c4Cluster c4Site).ensured
        = ["pvc_drupal", "dbod_cr", "webdav_secret", "cm_php", "cm_nginx", "cm_settings",
           "deploy_drupal", "svc_nginx", "site_install_job", "backup_schedule"]
    ∧ (ensureResources baseEnv c4Cluster c4Site).errs = []
    ∧ (ensureResources baseEnv c4Cluster c4Site).cluster.routes = ["webdav-mysite"]
    ∧ (ensureResources baseEnv c4Cluster c4Site).cluster.oidcReturnURIs = ["mysite"] := by
  exact ⟨rfl, rfl, rfl, rfl, rfl, rfl⟩

theorem setCond_changed_of_not_true (cs : Conditions) (t : String)
    (h : conditionTrue cs t = false) :
    (setCond cs t { status := .ctrue, reason := "", message := "" }).2 = true := by
  induction cs with
  | nil => simp [setCond]
  | cons p rest ih =>
    by_cases hp : p.1 = t
    · simp only [conditionTrue, getCondition, List.lookup, hp, beq_self_eq_true] at h
      simp only [setCond, hp, beq_self_eq_true, if_true, bne_iff_ne, ne_eq]
      intro hc
      rw [hc] at h
      simp at h
    · have hk : (t == p.1) = false := by simp [Ne.symm hp]
      have hb : (p.1 == t) = false := by simp [hp]
      simp only [conditionTrue, getCondition, List.lookup, hk] at h
      simp only [setCond, hb, Bool.false_eq_true, if_false]
      exact ih h

theorem setCond_unchanged_getCondition (cs : Conditions) (t : String) (c : Cond)
    (h : (setCond cs t c).2 = false) :
    getCondition cs t = some c := by
  induction cs with
  | nil => simp [setCond] at h
  | cons p rest ih =>
    by_cases hp : p.1 = t
    · simp only [setCond, hp, beq_self_eq_true, if_true, bne_eq_false_iff_eq] at h
      simp [getCondition, List.lookup, hp, h]
    · have hk : (t == p.1) = false := by simp [Ne.symm hp]
      have hb : (p.1 == t) = false := by simp [hp]
      simp only [setCond, hb, Bool.false_eq_true, if_false] at h
      simp only [getCondition, List.lookup, hk]
      exact ih h

theorem schemaClearConditions_execs (d : DrupalSite) (tr : List ExecCmd) :
    (schemaClearConditions d tr).execs = tr := by
  unfold schemaClearConditions
  dsimp only
  split <;> rfl


/-- Claim C5: when the schema-check reports pending migrations and
DBUpdatesPending is not already set, updateDBSchema sets DBUpdatesPending and
returns update=true having issued only the schema-check exec (so the pass
persists the status before any backup or migration command); and whenever a
backup or migration exec is issued, DBUpdatesPending was already true at
entry to the workflow. -/
theorem c5_db_pending_before_backup (env : Env) (d : DrupalSite) (s : String)
    (h1 : env.execCheckUpdb = some s) (h2 : s ≠ "")
    (h3 : conditionTrue d.status.conditions "DBUpdatesPending" = false)
    (h4 : conditionTrue d.status.conditions "DBUpdatesFailed" = false)
    (h5 : conditionTrue d.status.conditions "CodeUpdateFailed" = false) :
    ((updateDBSchema env d).update = true
      ∧ conditionTrue (updateDBSchema env d).site.status.conditions "DBUpdatesPending" = true
      ∧ (updateDBSchema env d).execs = [ExecCmd.checkUpdb]
      ∧ ∀ (c : Cluster) (nf : Option AppError) (ex : List ExecCmd),
          (stageDBUpdate env c d true nf ex).persists = [Persist.statusSub])
    ∧ ∀ (env₂ : Env) (d₂ : DrupalSite),
        (ExecCmd.takeBackup ∈ (updateDBSchema env₂ d₂).execs
          ∨ ExecCmd.runUpdb ∈ (updateDBSchema env₂ d₂).execs) →
        conditionTrue d₂.status.conditions "DBUpdatesPending" = true := by
  have hs : (s != "") = true := by simpa using h2
  have hchanged : (setCond d.status.conditions "DBUpdatesPending"
      { status := .ctrue, reason := "", message := "" }).2 = true :=
    setCond_changed_of_not_true _ _ h3
  have hmain : updateDBSchema env d
      = { site := (setDBUpdatesPending d).1, update := true, execs := [ExecCmd.checkUpdb] } := by
    unfold updateDBSchema
    rw [h1]
    dsimp only
    rw [hs]
    simp only [if_true]
    unfold setDBUpdatesPending
    dsimp only
    rw [hchanged]
    simp
  constructor
  · refine ⟨by rw [hmain], ?_, by rw [hmain], ?_⟩
    · rw [hmain]
      unfold setDBUpdatesPending
      dsimp only
      simp [withConditions, conditionTrue_setCond_self]
    · intro c nf ex
      unfold stageDBUpdate
      dsimp only
      simp only [h4, h5, Bool.not_false, Bool.and_self, if_true]
      rw [hmain]
      dsimp only
      simp [persistStatusExit]
  · intro env₂ d₂
    unfold updateDBSchema
    dsimp only
    cases henv : env₂.execCheckUpdb with
    | none => intro hmem; simp at hmem
    | some sout =>
      dsimp only
      by_cases hso : (sout != "") = true
      · rw [hso]
        simp only [if_true]
        unfold setDBUpdatesPending
        dsimp only
        by_cases hsp : (setCond d₂.status.conditions "DBUpdatesPending"
            { status := .ctrue, reason := "", message := "" }).2 = true
        · rw [hsp]
          simp only [if_true]
          intro hmem
          simp at hmem
        · have hsp2 : (setCond d₂.status.conditions "DBUpdatesPending"
              { status := .ctrue, reason := "", message := "" }).2 = false := by
            simpa using hsp
          intro _
          have hget := setCond_unchanged_getCondition _ _ _ hsp2
          simp [conditionTrue, hget]
      · have hso2 : (sout != "") = false := by simpa using hso
        rw [hso2]
        simp only [Bool.false_eq_true, if_false]
        intro hmem
        rw [schemaClearConditions_execs] at hmem
        simp at hmem


/-- Witness for C5 at a concrete pending schema-check. -/
theorem c5_db_pending_before_backup_witness :
    (updateDBSchema { baseEnv with execCheckUpdb := some "pending" } c1Site).update = true
    ∧ conditionTrue (updateDBSchema { baseEnv with execCheckUpdb := some "pending" }
        c1Site).site.status.conditions "DBUpdatesPending" = true
    ∧ (updateDBSchema { baseEnv with execCheckUpdb := some "pending" } c1Site).execs
        = [ExecCmd.checkUpdb] := by
  have h := c5_db_pending_before_backup { baseEnv with execCheckUpdb := some "pending" }
    c1Site "pending" rfl (by decide) rfl rfl rfl
  exact ⟨h.1.1, h.1.2.1, h.1.2.2.1⟩


/-- Claim C7 counterexample: a site whose install job succeeded but whose
deployment is not ready; the condition evaluation sets Initialized to False
even though the install job has succeeded, refuting the claim as stated. -/
theorem c7_counterexample :
    isInstallJobCompleted c7Cluster = true
    ∧ isCloneJobCompleted c7Cluster = false
    ∧ conditionTrue c7Site.status.conditions "Initialized" = false
    ∧ conditionTrue (evalInitializedCond baseEnv c7Cluster c7Site).1.status.conditions
        "Initialized" = false := by
  exact ⟨rfl, rfl, rfl, rfl⟩


/-- Claim C7 (amended): while Initialized is not yet true, the condition
evaluation sets Initialized to true exactly when the live install-status
probe succeeds (site Ready and the check-if-installed exec reports no error)
or the clone job has succeeded, and sets it to False when neither holds. -/
theorem c7_initialized_live_probe (env : Env) (c : Cluster) (d : DrupalSite)
    (h : conditionTrue d.status.conditions "Initialized" = false) :
    conditionTrue (evalInitializedCond env c d).1.status.conditions "Initialized"
        = (isDrupalSiteInstalled env c || isCloneJobCompleted c)
    ∧ ((isDrupalSiteInstalled env c || isCloneJobCompleted c) = false →
        getCondition (evalInitializedCond env c d).1.status.conditions "Initialized"
          = some { status := .cfalse, reason := "", message := "" }) := by
  unfold evalInitializedCond
  rw [h]
  simp only [Bool.not_false, if_true]
  cases hprobe : (isDrupalSiteInstalled env c || isCloneJobCompleted c) with
  | true =>
    refine ⟨?_, by intro hfalse; cases hfalse⟩
    simp [setInitialized, withConditions, conditionTrue_setCond_self]
  | false =>
    refine ⟨?_, ?_⟩
    · simp [setNotInitialized, withConditions, conditionTrue_setCond_self]
    · intro _
      simp [setNotInitialized, withConditions, getCondition_setCond_self]


/-- Witness for C7 (amended) at a concrete site where neither probe holds. -/
theorem c7_initialized_live_probe_witness :
    conditionTrue (evalInitializedCond baseEnv c7Cluster c7Site).1.status.conditions
        "Initialized"
      = (isDrupalSiteInstalled baseEnv c7Cluster || isCloneJobCompleted c7Cluster)
    ∧ getCondition (evalInitializedCond baseEnv c7Cluster c7Site).1.status.conditions
          "Initialized"
        = some { status := .cfalse, reason := "", message := "" } :=
  ⟨(c7_initialized_live_probe baseEnv c7Cluster c7Site rfl).1,
   (c7_initialized_live_probe baseEnv c7Cluster c7Site rfl).2 rfl⟩


/-- Claim C8 counterexample: a pass whose two cache-reload exec calls both
report stderr output ends with a status persist and no requeue
(Requeue=false, nil error), refuting the claim that the workflow ends the
pass with a requeue; no condition is set and nothing is rolled back. -/
theorem c8_counterexample :
    c8Env.execCacheReload1 = none
    ∧ c8Env.execCacheReload2 = none
    ∧ (reconcile c8Env baseCluster c8Site).execs = [ExecCmd.cacheReload, ExecCmd.cacheReload]
    ∧ (reconcile c8Env baseCluster c8Site).persists = [Persist.statusSub]
    ∧ (reconcile c8Env baseCluster c8Site).res = { requeue := false, err := none }
    ∧ (reconcile c8Env baseCluster c8Site).site = c8Site := by
  exact ⟨rfl, rfl, rfl, rfl, rfl, rfl⟩


/-- Claim C8 (amended): after a successful rollout, the cache-reload exec is
retried exactly once when the first invocation reports stderr output, and if
the retry also reports stderr output updateDrupalVersion returns update=true
(so the pass ends with a status persist, not a requeue), with no failure
condition set and no rollback. -/
theorem c8_cache_reload_retry (env : Env) (c : Cluster) (d : DrupalSite)
    (h1 : ensureUpdatedDeployment env c d = Except.ok (c, OpResult.unchanged))
    (h2 : didVersionRollOutSucceed env.now c d = (false, none))
    (h3 : env.execCacheReload1 = none) :
    (updateDrupalVersion env c d).execs = [ExecCmd.cacheReload, ExecCmd.cacheReload]
    ∧ (env.execCacheReload2 = none →
        updateDrupalVersion env c d
          = { site := d, cluster := c, update := true, requeue := false, err := none,
              errorMessage := "", execs := [ExecCmd.cacheReload, ExecCmd.cacheReload] }) := by
  unfold updateDrupalVersion
  rw [h1]
  dsimp only
  simp only [beq_self_eq_true, if_true]
  rw [h2]
  dsimp only
  simp only [Bool.false_eq_true, if_false]
  rw [h3]
  constructor
  · cases h4 : env.execCacheReload2 with
    | none => rfl
    | some sout =>
      unfold afterCacheReload
      dsimp only
      repeat' split
      all_goals rfl
  · intro h4
    rw [h4]


/-- Witness for C8 (amended) at a concrete double cache-reload failure. -/
theorem c8_cache_reload_retry_witness :
    (updateDrupalVersion c8Env baseCluster baseSite).execs
        = [ExecCmd.cacheReload, ExecCmd.cacheReload]
    ∧ updateDrupalVersion c8Env baseCluster baseSite
        = { site := baseSite, cluster := baseCluster, update := true, requeue := false,
            err := none, errorMessage := "", execs := [ExecCmd.cacheReload, ExecCmd.cacheReload] } :=
  ⟨(c8_cache_reload_retry c8Env baseCluster baseSite rfl rfl rfl).1,
   (c8_cache_reload_retry c8Env baseCluster baseSite rfl rfl rfl).2 rfl⟩
